import Mathlib

/-!
# Verification of the benchmark orchestration core (load-tester)

A shallow embedding, in Lean 4, of the orchestration engine of the
Bun-vs-Node benchmark harness (`load-tester/runner.js` and
`load-tester/server.js`), together with proofs and refutations of the
stated properties of that engine.

Conventions of the embedding:
* JavaScript numbers are modelled as `ℚ` (the values manipulated here are
  decimal fractions; no overflow or precision loss is relevant to the
  properties under study); inside the metric parser they are kept as
  unreduced finite decimals (`JsDec`) whose rational value is `JsDec.toQ`.
  Where a JavaScript expression can be `NaN` or `undefined`, the model
  uses `Option` with `none` for NaN/undefined.
* JavaScript strings are modelled as `String` / `List Char`; the string
  operations used by the source (`split`, `trim`, `includes`, `slice`,
  `replace`, `startsWith`) are defined below on `List Char` so that every
  definition evaluates by kernel reduction.
* Asynchronous mutation of a run object is modelled as a trace: the list
  of snapshots of the run object after every field assignment performed
  by the scheduler.
-/

namespace LoadTester

/-! ## JavaScript string primitives -/

/-- `s.split(sep)` for a one-character separator, on character lists.
`"a:b".split(":") = ["a","b"]`, `":".split(":") = ["",""]`. -/
def splitOnChar (sep : Char) : List Char → List (List Char)
  | [] => [[]]
  | c :: cs =>
    if c = sep then [] :: splitOnChar sep cs
    else
      match splitOnChar sep cs with
      | [] => [[c]]
      | w :: ws => (c :: w) :: ws

/-- Does list `p` start list `s`? -/
def listStartsWith : List Char → List Char → Bool
  | [], _ => true
  | _ :: _, [] => false
  | a :: as, b :: bs => a == b && listStartsWith as bs

/-- Does `sub` occur contiguously inside `s`? -/
def listContains (sub : List Char) : List Char → Bool
  | [] => sub.isEmpty
  | c :: cs => listStartsWith sub (c :: cs) || listContains sub cs

/-- `a.includes(b)`: substring containment. -/
def jsIncludes (s : List Char) (sub : String) : Bool :=
  listContains sub.data s

/-- `s.trim()`. -/
def jsTrim (s : List Char) : List Char :=
  ((s.dropWhile Char.isWhitespace).reverse.dropWhile Char.isWhitespace).reverse

/-- `s.startsWith(p)`. -/
def jsStartsWith (s : String) (pre : String) : Bool :=
  pre.data.isPrefixOf s.data

/-- `s.trim().split(/\s+/)`: the whitespace-separated words of `s`.
(On a trimmed non-empty string this agrees with the JavaScript regex
split; on an all-whitespace string both sides yield no usable token.) -/
def wsWords : List Char → List (List Char)
  | [] => []
  | c :: cs =>
    if c.isWhitespace then wsWords cs
    else
      match wsWords cs with
      | [] => [[c]]
      | w :: ws =>
        if ∃ d ∈ cs.take 1, ¬ d.isWhitespace then (c :: w) :: ws
        else [c] :: w :: ws

/-! ## `parseFloat` and finite decimals

Model of the JavaScript `parseFloat` builtin on the fragment exercised by
the source: optional leading whitespace, optional sign, decimal digits
with at most one point, trailing garbage ignored.  `none` models NaN.
(Exponent notation `1e3` and `Infinity` are accepted by JavaScript but are
never produced by the `hey` tool nor by this system's own `toFixed`
output, and are not modelled.)

The parsed value is kept as an unreduced finite decimal `JsDec`
(sign, mantissa, number of fractional digits) so that the whole parsing
pipeline computes inside `Nat`; `JsDec.toQ` gives its value in `ℚ`. -/

/-- A finite decimal: value `±mantissa / 10 ^ exp`. -/
structure JsDec where
  neg : Bool
  mantissa : Nat
  exp : Nat
  deriving DecidableEq, Repr

/-- The number zero. -/
def JsDec.zero : JsDec := ⟨false, 0, 0⟩

/-- The rational value of a `JsDec`. -/
def JsDec.toQ (d : JsDec) : ℚ :=
  (if d.neg then -1 else 1) * (d.mantissa : ℚ) / 10 ^ d.exp

/-- Multiplication of a decimal by a natural constant (the byte-unit
multipliers 1024, 1024², 1024³). -/
def JsDec.mulNat (d : JsDec) (k : Nat) : JsDec :=
  ⟨d.neg, d.mantissa * k, d.exp⟩

/-- Numeric value of a digit character. -/
def digitVal (c : Char) : Nat := c.toNat - 48

/-- Value of a list of digit characters read in base 10. -/
def digitsToNat (ds : List Char) : Nat :=
  ds.foldl (fun a c => 10 * a + digitVal c) 0

/-- `parseFloat`; `none` is NaN. -/
def jsParseFloat (s : String) : Option JsDec :=
  let cs := s.data.dropWhile Char.isWhitespace
  let signAndRest : Bool × List Char :=
    match cs with
    | '-' :: rest => (true, rest)
    | '+' :: rest => (false, rest)
    | _ => (false, cs)
  let intDs := signAndRest.2.takeWhile Char.isDigit
  let afterInt := signAndRest.2.dropWhile Char.isDigit
  let fracDs :=
    match afterInt with
    | '.' :: rest => rest.takeWhile Char.isDigit
    | _ => []
  if intDs = [] ∧ fracDs = [] then none
  else
    some ⟨signAndRest.1, digitsToNat intDs * 10 ^ fracDs.length + digitsToNat fracDs,
      fracDs.length⟩

/-! ## Concurrency level generation (`generateConcurrencyLevels`, runner.js 45–73) -/

/-- The low-range loop `for (let i = 50; i <= maxC; i += 50)` pushing `i`
when `i <= 100 || i % 100 === 0`.  `fuel` bounds the iteration count; the
callers pass `maxC + 1`, which the loop (stepping by 50) never reaches. -/
def lowRangeLoop (maxC : Nat) : Nat → Nat → List Nat
  | _, 0 => []
  | i, fuel + 1 =>
    if i ≤ maxC then
      (if i ≤ 100 ∨ i % 100 = 0 then [i] else []) ++ lowRangeLoop maxC (i + 50) fuel
    else []

/-- A loop `for (let i = start; i <= maxC; i += step)` pushing every `i`.
`fuel` bounds the iteration count as in `lowRangeLoop`. -/
def stepLoop (step maxC : Nat) : Nat → Nat → List Nat
  | _, 0 => []
  | i, fuel + 1 =>
    if i ≤ maxC then i :: stepLoop step maxC (i + step) fuel else []

/-- The `levels` array of `generateConcurrencyLevels` right before the
"ensure max is included" step: the three ranges of runner.js 48–65. -/
def rangeLevels (maxConcurrency : Nat) : List Nat :=
  if maxConcurrency ≤ 500 then
    lowRangeLoop maxConcurrency 50 (maxConcurrency + 1)
  else if maxConcurrency ≤ 2000 then
    [100, 250, 500] ++ stepLoop 250 maxConcurrency 750 (maxConcurrency + 1)
  else
    [100, 500, 1000] ++ stepLoop 500 maxConcurrency 1500 (maxConcurrency + 1)

/-- `generateConcurrencyLevels(maxConcurrency)` (runner.js 45–73): range
selection, the "ensure max is included" push
(`levels[levels.length-1] !== maxConcurrency`, which on the empty array
compares `undefined`), and the final `filter(l => l <= maxConcurrency)`. -/
def generateConcurrencyLevels (maxConcurrency : Nat) : List Nat :=
  let levels := rangeLevels maxConcurrency
  let ensured :=
    if levels.getLast? ≠ some maxConcurrency then levels ++ [maxConcurrency] else levels
  ensured.filter (· ≤ maxConcurrency)

/-! ## Metric parser (`parseHeyOutput`, runner.js 144–175) -/

/-- The parser state `{rps, avgLatency, p99Latency, totalRequests, totalBytes}`.
`totalBytes` is `Option JsDec` because `parseFloat(match[1])` there carries
no `|| 0` guard, so the JavaScript value can be NaN (modelled `none`); all
the other numeric fields are guarded by `|| 0`. -/
structure HeyMetrics where
  rps : JsDec
  avgLatency : String
  p99Latency : String
  totalRequests : JsDec
  totalBytes : Option JsDec
  deriving DecidableEq, Repr

/-- The initial values of runner.js line 146. -/
def initMetrics : HeyMetrics :=
  { rps := JsDec.zero, avgLatency := "0", p99Latency := "0", totalRequests := JsDec.zero,
    totalBytes := some JsDec.zero }

/-- `parseFloat(line.split(":")[1]?.trim()) || 0`. -/
def parseAfterColon (line : List Char) : JsDec :=
  (((splitOnChar ':' line).get? 1).map jsTrim |>.bind
    (fun t => jsParseFloat (String.mk t))).getD JsDec.zero

/-- `line.split(":")[1]?.trim()?.split(" ")[0] || "0"` (a string result). -/
def tokenAfterColon (line : List Char) : String :=
  match ((splitOnChar ':' line).get? 1).map jsTrim with
  | none => "0"
  | some t =>
    match (splitOnChar ' ' t).get? 0 with
    | none => "0"
    | some w => if w = [] then "0" else String.mk w

/-- `parseFloat(line.split(":")[1]?.trim()?.split(" ")[0]) || 0`. -/
def parseTokenAfterColon (line : List Char) : JsDec :=
  (match ((splitOnChar ':' line).get? 1).map jsTrim with
   | none => none
   | some t => ((splitOnChar ' ' t).get? 0).bind
       (fun w => jsParseFloat (String.mk w))).getD JsDec.zero

/-- A `\w` word character. -/
def isWordChar (c : Char) : Bool := c.isAlphanum || c = '_'

/-- The `\s*(\w+)` tail of the `Total data` regex, tried at `cs`. -/
def unitAfter (cs : List Char) : Option (List Char) :=
  let rest := cs.dropWhile Char.isWhitespace
  let unit := rest.takeWhile isWordChar
  if unit = [] then none else some unit

/-- Backtracking over the greedy `([\d.]+)` capture: `numRev` is the
reversed remaining candidate capture, `after` the characters already given
back (followed by the rest of the line).  Mirrors how the regex engine
shortens the greedy group until `\s*(\w+)` matches. -/
def numBacktrack : List Char → List Char → Option (List Char × List Char)
  | [], _ => none
  | c :: numRev, after =>
    match unitAfter after with
    | some u => some ((c :: numRev).reverse, u)
    | none => numBacktrack numRev (c :: after)

/-- Try `/Total data:\s+([\d.]+)\s*(\w+)/` anchored at the start of `cs`. -/
def totalDataAt (cs : List Char) : Option (List Char × List Char) :=
  if listStartsWith "Total data:".data cs then
    let rest := cs.drop "Total data:".data.length
    let ws := rest.takeWhile Char.isWhitespace
    let rest2 := rest.dropWhile Char.isWhitespace
    if ws = [] then none
    else
      let numFull := rest2.takeWhile (fun c => c.isDigit || c = '.')
      let rest3 := rest2.dropWhile (fun c => c.isDigit || c = '.')
      numBacktrack numFull.reverse rest3
  else none

/-- `line.match(/Total data:\s+([\d.]+)\s*(\w+)/)`: first position where
the pattern matches, scanning left to right. -/
def matchTotalData : List Char → Option (List Char × List Char)
  | [] => none
  | c :: cs =>
    match totalDataAt (c :: cs) with
    | some r => some r
    | none => matchTotalData cs

/-- The unit normalization of runner.js 166–169 applied to the parsed
number (`NaN`, i.e. `none`, propagates through the multiplications). -/
def applyByteUnit (n : Option JsDec) (unit : List Char) : Option JsDec :=
  let u := String.mk (unit.map Char.toLower)
  if u = "kb" ∨ u = "kilobytes" then n.map (JsDec.mulNat · 1024)
  else if u = "mb" ∨ u = "megabytes" then n.map (JsDec.mulNat · (1024 * 1024))
  else if u = "gb" ∨ u = "gigabytes" then n.map (JsDec.mulNat · (1024 * 1024 * 1024))
  else n

/-- `if (line.includes("Requests/sec:")) { rps = ... }` (runner.js 149–151). -/
def heyStepRps (line : List Char) (m : HeyMetrics) : HeyMetrics :=
  if jsIncludes line "Requests/sec:" then { m with rps := parseAfterColon line } else m

/-- `if (line.includes("Average:") && !avgLatency.includes("."))` (152–154). -/
def heyStepAvg (line : List Char) (m : HeyMetrics) : HeyMetrics :=
  if jsIncludes line "Average:" && ! jsIncludes m.avgLatency.data "." then
    { m with avgLatency := tokenAfterColon line }
  else m

/-- `if (line.includes("99%"))` (155–158). -/
def heyStepP99 (line : List Char) (m : HeyMetrics) : HeyMetrics :=
  if jsIncludes line "99%" then
    { m with p99Latency :=
        match (wsWords line).get? 1 with
        | none => "0"
        | some w => if w = [] then "0" else String.mk w }
  else m

/-- `if (line.includes("Total:") && totalRequests === 0)` (159–161). -/
def heyStepTotal (line : List Char) (m : HeyMetrics) : HeyMetrics :=
  if jsIncludes line "Total:" && decide (m.totalRequests.mantissa = 0) then
    { m with totalRequests := parseTokenAfterColon line }
  else m

/-- `if (line.includes("Total data:"))` (162–171). -/
def heyStepTotalData (line : List Char) (m : HeyMetrics) : HeyMetrics :=
  if jsIncludes line "Total data:" then
    match matchTotalData line with
    | some (num, unit) =>
      { m with totalBytes := applyByteUnit (jsParseFloat (String.mk num)) unit }
    | none => m
  else m

/-- The body of the `for (const line of lines)` loop of `parseHeyOutput`:
the five independent label checks, in source order. -/
def parseHeyLine (m : HeyMetrics) (line : List Char) : HeyMetrics :=
  heyStepTotalData line (heyStepTotal line (heyStepP99 line (heyStepAvg line (heyStepRps line m))))

/-- `output.split("\n")`. -/
def heyLines (output : String) : List (List Char) :=
  splitOnChar '\n' output.data

/-- `parseHeyOutput(output)` (runner.js 144–175). -/
def parseHeyOutput (output : String) : HeyMetrics :=
  (heyLines output).foldl parseHeyLine initMetrics

/-- A line containing none of the five marker labels the parser looks
for. -/
def markerFree (line : List Char) : Bool :=
  ! jsIncludes line "Requests/sec:" && ! jsIncludes line "Average:" &&
  ! jsIncludes line "99%" && ! jsIncludes line "Total:" &&
  ! jsIncludes line "Total data:"

/-! ## Test-type registry (`TEST_TYPES`, runner.js 79–134) -/

/-- One entry of `TEST_TYPES`. -/
structure TestTypeInfo where
  name : String
  endpoint : String
  ttype : String
  deriving DecidableEq, Repr

/-- The `TEST_TYPES` map (descriptions omitted; they are display-only). -/
def TEST_TYPES : List (String × TestTypeInfo) :=
  [("throughput-todos", ⟨"HTTP Throughput (/api/todos)", "/api/todos", "throughput"⟩),
   ("throughput-health", ⟨"HTTP Throughput (/api/health)", "/api/health", "throughput"⟩),
   ("cpu-heavy", ⟨"CPU Heavy (100k Sort)", "/api/cpu-heavy", "cpu"⟩),
   ("fibonacci", ⟨"Fibonacci (n=40)", "/api/fibonacci/40", "fibonacci"⟩),
   ("network-egress", ⟨"Network Egress (Mbps)", "/api/network/download/1024", "network-egress"⟩),
   ("network-inbound", ⟨"Network Inbound (Mbps)", "/api/network/upload", "network-inbound"⟩),
   ("concurrent-sessions",
     ⟨"Max Concurrent Sessions", "/api/network/hold/1000", "concurrent-sessions"⟩),
   ("json-processing", ⟨"JSON Parse/Serialize", "/api/json-benchmark/medium", "json"⟩),
   ("full-suite", ⟨"Full Benchmark Suite", "all", "suite"⟩)]

/-- `TEST_TYPES[testType]` truthiness. -/
def validTestType (testType : String) : Bool :=
  (TEST_TYPES.find? (fun p => p.1 == testType)).isSome

/-! ## Run id generation (`generateRunId`, runner.js 137–141) -/

/-- A UTC clock reading, as exposed by `new Date()` through
`toISOString`. -/
structure JsDate where
  year : Nat
  month : Nat
  day : Nat
  hour : Nat
  minute : Nat
  second : Nat
  ms : Nat
  deriving DecidableEq, Repr

/-- Two-digit zero-padded decimal rendering (as `toISOString` emits for
in-range date fields). -/
def pad2 (n : Nat) : List Char :=
  [Nat.digitChar (n / 10 % 10), Nat.digitChar (n % 10)]

/-- Three-digit zero-padded milliseconds. -/
def pad3 (n : Nat) : List Char :=
  [Nat.digitChar (n / 100 % 10), Nat.digitChar (n / 10 % 10), Nat.digitChar (n % 10)]

/-- Four-digit zero-padded year. -/
def pad4 (n : Nat) : List Char :=
  [Nat.digitChar (n / 1000 % 10), Nat.digitChar (n / 100 % 10), Nat.digitChar (n / 10 % 10),
   Nat.digitChar (n % 10)]

/-- `date.toISOString()`: `YYYY-MM-DDTHH:MM:SS.mmmZ`. -/
def toISOString (t : JsDate) : List Char :=
  pad4 t.year ++ '-' :: pad2 t.month ++ '-' :: pad2 t.day ++ 'T' :: pad2 t.hour ++
    ':' :: pad2 t.minute ++ ':' :: pad2 t.second ++ '.' :: pad3 t.ms ++ ['Z']

/-- `generateRunId()` (runner.js 137–141):
`"run-" + toISOString().replace(/[:.]/g, "-").slice(0, 19)`, a function of
the creation instant. -/
def generateRunId (t : JsDate) : String :=
  String.mk ('r' :: 'u' :: 'n' :: '-' ::
    ((toISOString t).map (fun c => if c = ':' ∨ c = '.' then '-' else c)).take 19)

/-! ## Run configuration and the start request
(`startBenchmark`, runner.js 511–534; `handleApi` POST /api/run,
server.js 119–133) -/

/-- The resolved `run.config`. -/
structure Config where
  duration : String
  concurrency : Nat
  iterations : Nat
  maxConcurrency : Nat
  suiteDurationMinutes : Nat
  deriving DecidableEq, Repr

/-- The (partial) config object passed to `startBenchmark`; absent
properties (`none`) take the destructuring defaults of runner.js 513. -/
structure StartConfig where
  duration : Option String
  concurrency : Option Nat
  iterations : Option Nat
  maxConcurrency : Option Nat
  suiteDurationMinutes : Option Nat
  deriving DecidableEq, Repr

/-- The config resolution of `startBenchmark` (runner.js 513, 519):
`{duration = "30s", concurrency = 50, iterations = 10,
maxConcurrency = 2000, suiteDurationMinutes = 10}`. -/
def startBenchmarkConfig (config : StartConfig) : Config :=
  { duration := config.duration.getD "30s",
    concurrency := config.concurrency.getD 50,
    iterations := config.iterations.getD 10,
    maxConcurrency := config.maxConcurrency.getD 2000,
    suiteDurationMinutes := config.suiteDurationMinutes.getD 10 }

/-- A POST /api/run request body (every property optional in JSON). -/
structure RunBody where
  testType : Option String
  duration : Option String
  concurrency : Option Nat
  iterations : Option Nat
  maxConcurrency : Option Nat
  suiteDurationMinutes : Option Nat
  deriving DecidableEq, Repr

/-- The POST /api/run handler (server.js 119–133): destructures only
`{testType, duration = "30s", concurrency = 50, iterations = 10}` from the
body, rejects a falsy/unknown `testType` with a 400, and calls
`startBenchmark(testType, {duration, concurrency, iterations})`.  Returns
the created run's resolved config (the rest of the created run state is
modelled by `runBenchmarkTrace` below). -/
def handleRunPost (body : RunBody) : Except (Nat × String) Config :=
  match body.testType with
  | none => .error (400, "Invalid test type")
  | some t =>
    if validTestType t then
      .ok (startBenchmarkConfig
        { duration := some (body.duration.getD "30s"),
          concurrency := some (body.concurrency.getD 50),
          iterations := some (body.iterations.getD 10),
          maxConcurrency := none,
          suiteDurationMinutes := none })
    else .error (400, "Invalid test type")

/-! ## Scheduler state machine (`startBenchmark` / `runBenchmarkAsync` /
`runFullSuite`, runner.js 511–767)

The asynchronous mutation of a run object is modelled as a *trace*: the
list of snapshots of the run object after every single field assignment.
A poller of `GET /api/status/:runId` observes a subset of these snapshots
(those current at an `await` suspension point); every state exhibited
below as a counterexample persists across at least one `await`
(assignments are annotated in the definitions).

The executors' return payloads play no role in the lifecycle properties,
so `results` is not tracked; what matters is whether an executor call
*throws*, which is the input `out : Nat → Option String` (`out i = some
msg` means the `i`-th executor call of the run throws `msg`).  A throwing
call is realizable — e.g. `runNetworkInboundTest`'s payload-file fallback
`Bun.write` (runner.js 328) sits outside the inner try and propagates to
the `catch` of `runBenchmarkAsync` — and the `catch` (runner.js 591–596)
exists precisely for such exceptions.  `calculateSummary` is total (see
below) and `saveResults` catches internally (runner.js 900–902), so no
exception arises after the phase stage. -/

/-- `run.status`. -/
inductive RunStatus where
  | running
  | complete
  | error
  deriving DecidableEq, Repr

/-- A snapshot of the mutable run object.  `summary : Option Unit`
abstracts the summary object (`calculateSummary` always returns an
object, never null — its content is studied separately); `startTime`,
`endTime` and `results` are not tracked. -/
structure RunSnapshot where
  status : RunStatus
  progress : Nat
  progressText : String
  summary : Option Unit
  error : Option String
  deriving DecidableEq, Repr

/-- The run created by `startBenchmark` (runner.js 516–526). -/
def initialRun : RunSnapshot :=
  { status := .running, progress := 0, progressText := "Initializing...",
    summary := none, error := none }

/-- The `(progressText, progress)` milestone pairs of a non-suite run:
Bun at 20, Node.js at 60 (runner.js 599–667), with the phase text of the
matching executor dispatch. -/
def simplePhases (tt : TestTypeInfo) : List (String × Nat) :=
  if tt.ttype == "throughput" then
    [("Testing Bun " ++ tt.endpoint ++ "...", 20),
     ("Testing Node.js " ++ tt.endpoint ++ "...", 60)]
  else if tt.ttype == "cpu" then
    [("Testing Bun CPU performance...", 20), ("Testing Node.js CPU performance...", 60)]
  else if tt.ttype == "fibonacci" then
    [("Testing Bun Fibonacci...", 20), ("Testing Node.js Fibonacci...", 60)]
  else if tt.ttype == "network-egress" then
    [("Testing Bun egress throughput (download)...", 20),
     ("Testing Node.js egress throughput (download)...", 60)]
  else if tt.ttype == "network-inbound" then
    [("Testing Bun inbound throughput (upload)...", 20),
     ("Testing Node.js inbound throughput (upload)...", 60)]
  else if tt.ttype == "concurrent-sessions" then
    [("Testing Bun max concurrent sessions...", 20),
     ("Testing Node.js max concurrent sessions...", 60)]
  else if tt.ttype == "json" then
    [("Testing Bun JSON processing...", 20), ("Testing Node.js JSON processing...", 60)]
  else []

/-- The sixteen `(progressText, progress)` milestones of `runFullSuite`
(runner.js 697–767), in phase order. -/
def suitePhases : List (String × Nat) :=
  [("Testing Bun /api/todos throughput...", 5),
   ("Testing Node.js /api/todos throughput...", 10),
   ("Testing Bun /api/health throughput...", 15),
   ("Testing Node.js /api/health throughput...", 20),
   ("Testing Bun network egress (download)...", 25),
   ("Testing Node.js network egress (download)...", 35),
   ("Testing Bun network inbound (upload)...", 42),
   ("Testing Node.js network inbound (upload)...", 50),
   ("Testing Bun CPU performance...", 55),
   ("Testing Node.js CPU performance...", 60),
   ("Testing Bun Fibonacci...", 65),
   ("Testing Node.js Fibonacci...", 70),
   ("Testing Bun concurrent sessions...", 72),
   ("Testing Node.js concurrent sessions...", 80),
   ("Testing Bun JSON processing...", 88),
   ("Testing Node.js JSON processing...", 92)]

/-- The phase milestones a run of the given kind will walk through
(the `full-suite` dispatch of runner.js 560–561, else the single-executor
dispatch keyed on `testConfig.type`). -/
def phaseList (testType : String) : List (String × Nat) :=
  if testType == "full-suite" then suitePhases
  else
    match TEST_TYPES.find? (fun p => p.1 == testType) with
    | some p => simplePhases p.2
    | none => []

/-- Walk the phases: each phase sets `progressText`, then `progress`,
then awaits its executor call (`out i`); a throw aborts the remaining
phases.  Returns (snapshots, state after the walked phases, the thrown
message if any). -/
def runPhases (out : Nat → Option String) :
    List (String × Nat) → Nat → RunSnapshot →
      List RunSnapshot × RunSnapshot × Option String
  | [], _, s => ([], s, none)
  | (txt, p) :: rest, i, s =>
    let s1 := { s with progressText := txt }
    let s2 := { s1 with progress := p }
    match out i with
    | some msg => ([s1, s2], s2, some msg)
    | none =>
      let r := runPhases out rest (i + 1) s2
      (s1 :: s2 :: r.1, r.2)

/-- The trace of the unknown-test-type entry check (runner.js 541–546):
`status = "error"`, `error = "Unknown test type"`, nothing else ran. -/
def unknownTrace : List RunSnapshot :=
  [initialRun, { initialRun with status := .error },
   { initialRun with status := .error, error := some "Unknown test type" }]

/-- State after `progressText = "Checking service health..."`
(runner.js 550). -/
def healthCheckSnap : RunSnapshot :=
  { initialRun with progressText := "Checking service health..." }

/-- State after `progress = 5` (runner.js 551). -/
def healthCheckSnap5 : RunSnapshot :=
  { healthCheckSnap with progress := 5 }

/-- The snapshots of the health short-circuit (runner.js 553–558). -/
def healthErrTrace : List RunSnapshot :=
  [initialRun, healthCheckSnap, healthCheckSnap5,
   { healthCheckSnap5 with status := .error },
   { healthCheckSnap5 with status := .error, error := some "Services not healthy" }]

/-- The four assignments of the `catch` block (runner.js 591–596),
applied to the state `sf` current when the exception was thrown. -/
def errorTail (sf : RunSnapshot) (msg : String) : List RunSnapshot :=
  [{ sf with status := .error },
   { sf with status := .error, error := some msg },
   { sf with status := .error, error := some msg, progress := 0 },
   { sf with status := .error, error := some msg, progress := 0, progressText := "Error: " ++ msg }]

/-- The assignments of the summary/completion stage (runner.js 578–589):
`progress = 95`, text, `summary = calculateSummary(...)` (always an
object), the awaited `saveResults` (no run mutation, errors caught
inside), then `status = "complete"`, `progress = 100`, text. -/
def successTail (sf : RunSnapshot) : List RunSnapshot :=
  [{ sf with progress := 95 },
   { sf with progress := 95, progressText := "Generating summary..." },
   { sf with progress := 95, progressText := "Generating summary...", summary := some () },
   { sf with progress := 95, progressText := "Generating summary...", summary := some (), status := .complete },
   { sf with progress := 100, progressText := "Generating summary...", summary := some (), status := .complete },
   { sf with progress := 100, progressText := "Complete!", summary := some (), status := .complete }]

/-- The snapshot trace of `runBenchmarkAsync(runId, testType, ...)`
(runner.js 537–597) on a run freshly created by `startBenchmark`:
* unknown test type: `unknownTrace`;
* health probe (`progress = 5`) failing for either target
  (`healthErr = true`): `healthErrTrace`, skipping all phases;
* otherwise the phase walk, then the `catch` path (`errorTail`) if some
  executor threw, else summary and completion (`successTail`). -/
def runBenchmarkTrace (testType : String) (healthErr : Bool)
    (out : Nat → Option String) : List RunSnapshot :=
  if ¬ validTestType testType then unknownTrace
  else if healthErr then healthErrTrace
  else
    match runPhases out (phaseList testType) 0 healthCheckSnap5 with
    | (tr, sf, some msg) =>
      initialRun :: healthCheckSnap :: healthCheckSnap5 :: tr ++ errorTail sf msg
    | (tr, sf, none) =>
      initialRun :: healthCheckSnap :: healthCheckSnap5 :: tr ++ successTail sf

/-- Executable check that adjacent progress values never decrease. -/
def progressMonotone : List RunSnapshot → Bool
  | [] => true
  | [_] => true
  | a :: b :: rest => decide (a.progress ≤ b.progress) && progressMonotone (b :: rest)

/-- Executable check that a list of naturals is non-decreasing. -/
def monotoneNat : List Nat → Bool
  | [] => true
  | [_] => true
  | a :: b :: rest => decide (a ≤ b) && monotoneNat (b :: rest)

/-! ## Summary calculator (`calculateSummary`, runner.js 769–873)

The per-target result payloads are modelled as records in which *every*
field is optional (`none` = the field is absent from the JavaScript
object, or holds a non-numeric value where the consumer would parse it).
`x || 0` on a possibly-undefined number is `numD0`; `parseFloat(x) || 0`
on a possibly-undefined string is `strParse0`.  A computed improvement is
an `ImpValue`: the string `"N/A"`, the string `"NaN"` (what
`(undefined / y).toFixed(2)` produces), or `toFixed2` of an exact ratio
(`toFixed(2)` modelled as rounding to a hundredth). -/

/-- A per-target, per-sub-test result record; only the fields
`calculateSummary` reads. -/
structure SubResult where
  requests_per_second : Option ℚ := none
  avg_duration_ms : Option ℚ := none
  throughput_mbps : Option String := none
  max_sustained_concurrency : Option ℚ := none
  avg_total_ms : Option String := none
  deriving DecidableEq, Repr

/-- The nested `throughput` object of a full-suite result. -/
structure SuiteThroughput where
  todos : Option SubResult := none
  health : Option SubResult := none
  deriving DecidableEq, Repr

/-- One target's `results` payload: the flat fields a simple run
produces together with the nested fields a full-suite run produces
(JavaScript imposes no shape, so all are optional). -/
structure TargetResults where
  requests_per_second : Option ℚ := none
  avg_duration_ms : Option ℚ := none
  throughput_mbps : Option String := none
  max_sustained_concurrency : Option ℚ := none
  avg_total_ms : Option String := none
  throughput : Option SuiteThroughput := none
  cpu : Option SubResult := none
  fibonacci : Option SubResult := none
  networkEgress : Option SubResult := none
  networkInbound : Option SubResult := none
  concurrent : Option SubResult := none
  json : Option SubResult := none
  deriving DecidableEq, Repr

/-- `run.results`: the two targets. -/
structure Results where
  bun : Option TargetResults := none
  nodejs : Option TargetResults := none
  deriving DecidableEq, Repr

/-- A computed improvement string: `"N/A"`, `"NaN"`, or `(q).toFixed(2)`. -/
inductive ImpValue where
  | na
  | nan
  | fixed2 (q : ℚ)
  deriving DecidableEq, Repr

/-- `q.toFixed(2)`: rounding to a hundredth (the float/rounding-mode
minutiae of `Number.prototype.toFixed` are irrelevant to the properties
studied). -/
def toFixed2 (q : ℚ) : ℚ := (round (q * 100) : ℤ) / 100

/-- `x || 0` on a possibly-undefined number. -/
def numD0 (a : Option ℚ) : ℚ := a.getD 0

/-- `parseFloat(x) || 0` on a possibly-undefined string. -/
def strParse0 (a : Option String) : ℚ :=
  ((a.bind jsParseFloat).map JsDec.toQ).getD 0

/-- `x > 0` where `x` may be undefined (`undefined > 0` is false). -/
def jsGt0 (a : Option ℚ) : Bool :=
  match a with
  | some x => decide (0 < x)
  | none => false

/-- Division where either operand may be undefined: NaN (`none`) if so.
(The zero-denominator case is unreachable under the `> 0` guards.) -/
def jsDivO (a b : Option ℚ) : Option ℚ :=
  match a, b with
  | some x, some y => if y = 0 then none else some (x / y)
  | _, _ => none

/-- `.toFixed(2)` on a possibly-NaN number: `NaN.toFixed(2)` is the
string `"NaN"`. -/
def jsToFixed2 (a : Option ℚ) : ImpValue :=
  match a with
  | some q => .fixed2 (toFixed2 q)
  | none => .nan

/-- The summary object: `testType`, the `improvements` map in insertion
order, and the per-kind extra fields. -/
structure Summary where
  testType : String
  improvements : List (String × ImpValue)
  bunRps : Option ℚ := none
  nodeRps : Option ℚ := none
  bunMs : Option ℚ := none
  nodeMs : Option ℚ := none
  bunMbps : Option ℚ := none
  nodeMbps : Option ℚ := none
  bunMaxConcurrency : Option ℚ := none
  nodeMaxConcurrency : Option ℚ := none
  deriving DecidableEq, Repr

/-- Suite block (runner.js 777–781): `throughputTodos`.  Note the bare
field reads (no `|| 0`): an absent `requests_per_second` on the bun side
with a positive node side produces `"NaN"`. -/
def suiteThroughputTodosImp (results : Results) : List (String × ImpValue) :=
  match (results.bun.bind (fun r => r.throughput)).bind (fun t => t.todos),
        (results.nodejs.bind (fun r => r.throughput)).bind (fun t => t.todos) with
  | some bt, some nt =>
    let bunRps := bt.requests_per_second
    let nodeRps := nt.requests_per_second
    [("throughputTodos", if jsGt0 nodeRps then jsToFixed2 (jsDivO bunRps nodeRps) else .na)]
  | _, _ => []

/-- Suite block (runner.js 784–788): `cpu` (bare field reads). -/
def suiteCpuImp (results : Results) : List (String × ImpValue) :=
  match results.bun.bind (fun r => r.cpu), results.nodejs.bind (fun r => r.cpu) with
  | some bc, some nc =>
    let bunMs := bc.avg_duration_ms
    let nodeMs := nc.avg_duration_ms
    [("cpu", if jsGt0 bunMs then jsToFixed2 (jsDivO nodeMs bunMs) else .na)]
  | _, _ => []

/-- Suite block (runner.js 791–795): `fibonacci` (bare field reads). -/
def suiteFibImp (results : Results) : List (String × ImpValue) :=
  match results.bun.bind (fun r => r.fibonacci), results.nodejs.bind (fun r => r.fibonacci) with
  | some bf, some nf =>
    let bunMs := bf.avg_duration_ms
    let nodeMs := nf.avg_duration_ms
    [("fibonacci", if jsGt0 bunMs then jsToFixed2 (jsDivO nodeMs bunMs) else .na)]
  | _, _ => []

/-- Suite block (runner.js 798–802): `networkEgress`
(`parseFloat(...) || 0` on both sides). -/
def suiteEgressImp (results : Results) : List (String × ImpValue) :=
  match results.bun.bind (fun r => r.networkEgress),
        results.nodejs.bind (fun r => r.networkEgress) with
  | some be, some nr =>
    let bunMbps := strParse0 be.throughput_mbps
    let nodeMbps := strParse0 nr.throughput_mbps
    [("networkEgress", if 0 < nodeMbps then .fixed2 (toFixed2 (bunMbps / nodeMbps)) else .na)]
  | _, _ => []

/-- Suite block (runner.js 805–809): `networkInbound`. -/
def suiteInboundImp (results : Results) : List (String × ImpValue) :=
  match results.bun.bind (fun r => r.networkInbound),
        results.nodejs.bind (fun r => r.networkInbound) with
  | some be, some nr =>
    let bunMbps := strParse0 be.throughput_mbps
    let nodeMbps := strParse0 nr.throughput_mbps
    [("networkInbound", if 0 < nodeMbps then .fixed2 (toFixed2 (bunMbps / nodeMbps)) else .na)]
  | _, _ => []

/-- Suite block (runner.js 812–816): `concurrent` (`|| 0` on both). -/
def suiteConcurrentImp (results : Results) : List (String × ImpValue) :=
  match results.bun.bind (fun r => r.concurrent),
        results.nodejs.bind (fun r => r.concurrent) with
  | some bc, some nc =>
    let bunMax := numD0 bc.max_sustained_concurrency
    let nodeMax := numD0 nc.max_sustained_concurrency
    [("concurrent", if 0 < nodeMax then .fixed2 (toFixed2 (bunMax / nodeMax)) else .na)]
  | _, _ => []

/-- Suite block (runner.js 819–823): `json` (`parseFloat(...) || 0`). -/
def suiteJsonImp (results : Results) : List (String × ImpValue) :=
  match results.bun.bind (fun r => r.json), results.nodejs.bind (fun r => r.json) with
  | some bj, some nj =>
    let bunMs := strParse0 bj.avg_total_ms
    let nodeMs := strParse0 nj.avg_total_ms
    [("json", if 0 < bunMs then .fixed2 (toFixed2 (nodeMs / bunMs)) else .na)]
  | _, _ => []

/-- `calculateSummary(results, testType)` (runner.js 769–873). -/
def calculateSummary (results : Results) (testType : String) : Summary :=
  if testType == "full-suite" then
    { testType := testType,
      improvements :=
        suiteThroughputTodosImp results ++ suiteCpuImp results ++ suiteFibImp results ++
          suiteEgressImp results ++ suiteInboundImp results ++ suiteConcurrentImp results ++
          suiteJsonImp results }
  else if jsStartsWith testType "throughput" then
    let bunRps := numD0 (results.bun.bind (fun r => r.requests_per_second))
    let nodeRps := numD0 (results.nodejs.bind (fun r => r.requests_per_second))
    { testType := testType,
      improvements :=
        [("throughput", if 0 < nodeRps then .fixed2 (toFixed2 (bunRps / nodeRps)) else .na)],
      bunRps := some bunRps, nodeRps := some nodeRps }
  else if testType == "cpu-heavy" then
    let bunMs := numD0 (results.bun.bind (fun r => r.avg_duration_ms))
    let nodeMs := numD0 (results.nodejs.bind (fun r => r.avg_duration_ms))
    { testType := testType,
      improvements :=
        [("cpu", if 0 < bunMs then .fixed2 (toFixed2 (nodeMs / bunMs)) else .na)],
      bunMs := some bunMs, nodeMs := some nodeMs }
  else if testType == "fibonacci" then
    let bunMs := numD0 (results.bun.bind (fun r => r.avg_duration_ms))
    let nodeMs := numD0 (results.nodejs.bind (fun r => r.avg_duration_ms))
    { testType := testType,
      improvements :=
        [("fibonacci", if 0 < bunMs then .fixed2 (toFixed2 (nodeMs / bunMs)) else .na)],
      bunMs := some bunMs, nodeMs := some nodeMs }
  else if testType == "network-egress" then
    let bunMbps := strParse0 (results.bun.bind (fun r => r.throughput_mbps))
    let nodeMbps := strParse0 (results.nodejs.bind (fun r => r.throughput_mbps))
    { testType := testType,
      improvements :=
        [("egress", if 0 < nodeMbps then .fixed2 (toFixed2 (bunMbps / nodeMbps)) else .na)],
      bunMbps := some bunMbps, nodeMbps := some nodeMbps,
      bunRps := some (numD0 (results.bun.bind (fun r => r.requests_per_second))),
      nodeRps := some (numD0 (results.nodejs.bind (fun r => r.requests_per_second))) }
  else if testType == "network-inbound" then
    let bunMbps := strParse0 (results.bun.bind (fun r => r.throughput_mbps))
    let nodeMbps := strParse0 (results.nodejs.bind (fun r => r.throughput_mbps))
    { testType := testType,
      improvements :=
        [("inbound", if 0 < nodeMbps then .fixed2 (toFixed2 (bunMbps / nodeMbps)) else .na)],
      bunMbps := some bunMbps, nodeMbps := some nodeMbps,
      bunRps := some (numD0 (results.bun.bind (fun r => r.requests_per_second))),
      nodeRps := some (numD0 (results.nodejs.bind (fun r => r.requests_per_second))) }
  else if testType == "concurrent-sessions" then
    let bunMax := numD0 (results.bun.bind (fun r => r.max_sustained_concurrency))
    let nodeMax := numD0 (results.nodejs.bind (fun r => r.max_sustained_concurrency))
    { testType := testType,
      improvements :=
        [("concurrency", if 0 < nodeMax then .fixed2 (toFixed2 (bunMax / nodeMax)) else .na)],
      bunMaxConcurrency := some bunMax, nodeMaxConcurrency := some nodeMax }
  else if testType == "json-processing" then
    let bunMs := strParse0 (results.bun.bind (fun r => r.avg_total_ms))
    let nodeMs := strParse0 (results.nodejs.bind (fun r => r.avg_total_ms))
    { testType := testType,
      improvements :=
        [("json", if 0 < bunMs then .fixed2 (toFixed2 (nodeMs / bunMs)) else .na)],
      bunMs := some bunMs, nodeMs := some nodeMs }
  else { testType := testType, improvements := [] }

/-- The concrete full-suite results of the C6 counterexample: the bun
todos record exists but lacks `requests_per_second`; the node todos
record reports 100 rps. -/
def nanResults : Results :=
  { bun := some { throughput := some { todos := some {} } },
    nodejs := some { throughput := some { todos := some { requests_per_second := some 100 } } } }

/-! ## Results store (`saveResults` / `updateRunsIndex` /
`getRunDetails`, runner.js 875–935 and 1089–1104)

The store is modelled as an association list from path strings to typed
file contents, newest write first (`fsRead` finds the most recent write,
like a filesystem overwrite).  `RESULTS_DIR` is the primary location;
the `/tmp` fallback of `getResultsDir` only changes the prefix string and
is orthogonal to the properties below.  The `details` projection
(`extractRunDetails`) stored in each index entry is display-only and read
by no claim; it is omitted from the entry record. -/

/-- The resolved results directory (primary location). -/
def RESULTS_DIR : String := "/results"

/-- The content of `summary.json` (runner.js 889–895).  `saveResults`
runs *before* `run.endTime` is assigned, so `endTime` is absent in the
persisted document of a live completion. -/
structure SummaryDoc where
  id : String
  testType : String
  startTime : String
  endTime : Option String
  summary : Option Summary
  deriving DecidableEq, Repr

/-- One entry of `runs.json` (runner.js 919–929, without the
display-only `details`). -/
structure IndexEntry where
  id : String
  testType : String
  testName : String
  startTime : String
  endTime : Option String
  config : Config
  summary : Option Summary
  deriving DecidableEq, Repr

/-- A typed file in the store. -/
inductive FileVal where
  | configFile (c : Config)
  | resultsFile (r : Option TargetResults)
  | summaryFile (s : SummaryDoc)
  | indexFile (l : List IndexEntry)
  deriving DecidableEq

/-- The in-memory run object at `saveResults` time. -/
structure RunRecord where
  id : String
  testType : String
  startTime : String
  endTime : Option String
  config : Config
  resultsBun : Option TargetResults
  resultsNodejs : Option TargetResults
  summary : Option Summary
  deriving DecidableEq, Repr

/-- The store: newest write first. -/
abbrev FS : Type := List (String × FileVal)

/-- `Bun.write(path, v)`. -/
def fsWrite (fs : FS) (path : String) (v : FileVal) : FS := (path, v) :: fs

/-- Read a path: the most recent write wins; `none` is a missing file
(a read that would throw in JavaScript). -/
def fsRead (fs : FS) (path : String) : Option FileVal :=
  (fs.find? (fun p => p.1 == path)).map (fun p => p.2)

/-- The `runs.json` read of `updateRunsIndex` (runner.js 909–914): a
missing or unparsable index file starts from the empty list. -/
def readIndex (fs : FS) : List IndexEntry :=
  match fsRead fs (RESULTS_DIR ++ "/runs.json") with
  | some (.indexFile l) => l
  | _ => []

/-- The index entry built for a completed run (runner.js 919–929). -/
def mkIndexEntry (run : RunRecord) : IndexEntry :=
  { id := run.id, testType := run.testType,
    testName :=
      ((TEST_TYPES.find? (fun p => p.1 == run.testType)).map (fun p => p.2.name)).getD
        run.testType,
    startTime := run.startTime, endTime := run.endTime, config := run.config,
    summary := run.summary }

/-- `updateRunsIndex(run)` (runner.js 905–935): read-modify-write with
`unshift` then `slice(0, 50)`. -/
def updateRunsIndex (fs : FS) (run : RunRecord) : FS :=
  fsWrite fs (RESULTS_DIR ++ "/runs.json")
    (.indexFile ((mkIndexEntry run :: readIndex fs).take 50))

/-- `saveResults(run)` (runner.js 875–903): the four per-run artifacts,
then the index update. -/
def saveResults (fs : FS) (run : RunRecord) : FS :=
  updateRunsIndex
    (fsWrite
      (fsWrite
        (fsWrite
          (fsWrite fs (RESULTS_DIR ++ "/" ++ run.id ++ "/config.json")
            (.configFile run.config))
          (RESULTS_DIR ++ "/" ++ run.id ++ "/bun-results.json") (.resultsFile run.resultsBun))
        (RESULTS_DIR ++ "/" ++ run.id ++ "/nodejs-results.json")
        (.resultsFile run.resultsNodejs))
      (RESULTS_DIR ++ "/" ++ run.id ++ "/summary.json")
      (.summaryFile ⟨run.id, run.testType, run.startTime, run.endTime, run.summary⟩))
    run

/-- The composite returned by `getRunDetails` (runner.js 1100). -/
structure RunDetails where
  config : Config
  bunResults : Option TargetResults
  nodejsResults : Option TargetResults
  summary : SummaryDoc
  deriving DecidableEq, Repr

/-- `getRunDetails(runId)` (runner.js 1089–1104): read the four
artifacts; if any is missing (the `Promise.all` rejects), return null. -/
def getRunDetails (fs : FS) (runId : String) : Option RunDetails :=
  match fsRead fs (RESULTS_DIR ++ "/" ++ runId ++ "/config.json"),
      fsRead fs (RESULTS_DIR ++ "/" ++ runId ++ "/bun-results.json"),
      fsRead fs (RESULTS_DIR ++ "/" ++ runId ++ "/nodejs-results.json"),
      fsRead fs (RESULTS_DIR ++ "/" ++ runId ++ "/summary.json") with
  | some (.configFile c), some (.resultsFile b), some (.resultsFile n),
      some (.summaryFile s) => some ⟨c, b, n, s⟩
  | _, _, _, _ => none

/-- Persist a sequence of completed runs in order. -/
def persistAll (fs : FS) (runs : List RunRecord) : FS := runs.foldl saveResults fs

/-- A sample completed run (used to instantiate witnesses). -/
def sampleRun : RunRecord :=
  { id := "run-2025-10-11T12-34-56", testType := "cpu-heavy", startTime := "t0",
    endTime := none, config := ⟨"30s", 50, 10, 2000, 10⟩, resultsBun := none,
    resultsNodejs := none, summary := none }

/-! ## Lemmas and theorems -/

lemma progressMonotone_iff_chain :
    ∀ l : List RunSnapshot,
      progressMonotone l = true ↔
        List.Chain' (fun a b : RunSnapshot => a.progress ≤ b.progress) l
  | [] => by simp [progressMonotone]
  | [a] => by simp [progressMonotone]
  | a :: b :: rest => by
    rw [List.chain'_cons, ← progressMonotone_iff_chain (b :: rest)]
    simp [progressMonotone, Bool.and_eq_true]

lemma runPhases_fields (out : Nat → Option String) :
    ∀ (ps : List (String × Nat)) (i : Nat) (s : RunSnapshot),
      (∀ x ∈ (runPhases out ps i s).1,
        x.status = s.status ∧ x.summary = s.summary ∧ x.error = s.error) ∧
      ((runPhases out ps i s).2.1.status = s.status ∧
        (runPhases out ps i s).2.1.summary = s.summary ∧
        (runPhases out ps i s).2.1.error = s.error) := by
  intro ps
  induction ps with
  | nil => intro i s; exact ⟨by intro x hx; simp [runPhases] at hx, rfl, rfl, rfl⟩
  | cons hd rest ih =>
    intro i s
    obtain ⟨txt, p⟩ := hd
    simp only [runPhases]
    cases h : out i with
    | some msg =>
      refine ⟨?_, rfl, rfl, rfl⟩
      intro x hx
      simp at hx
      rcases hx with h1 | h2 <;> subst_vars <;> exact ⟨rfl, rfl, rfl⟩
    | none =>
      have := ih (i + 1) { { s with progressText := txt } with progress := p }
      refine ⟨?_, this.2⟩
      intro x hx
      simp only [List.mem_cons] at hx
      rcases hx with h1 | h2 | h3
      · subst h1; exact ⟨rfl, rfl, rfl⟩
      · subst h2; exact ⟨rfl, rfl, rfl⟩
      · exact this.1 x h3

lemma runPhases_progress (out : Nat → Option String) :
    ∀ (ps : List (String × Nat)) (i : Nat) (s : RunSnapshot),
      (∀ x ∈ (runPhases out ps i s).1,
        x.progress = s.progress ∨ x.progress ∈ ps.map Prod.snd) ∧
      ((runPhases out ps i s).2.1.progress = s.progress ∨
        (runPhases out ps i s).2.1.progress ∈ ps.map Prod.snd) := by
  intro ps
  induction ps with
  | nil => intro i s; exact ⟨by intro x hx; simp [runPhases] at hx, Or.inl rfl⟩
  | cons hd rest ih =>
    intro i s
    obtain ⟨txt, p⟩ := hd
    simp only [runPhases]
    cases h : out i with
    | some msg =>
      constructor
      · intro x hx
        simp at hx
        rcases hx with h1 | h2 <;> subst_vars
        · exact Or.inl rfl
        · exact Or.inr (by simp)
      · exact Or.inr (by simp)
    | none =>
      have := ih (i + 1) { { s with progressText := txt } with progress := p }
      constructor
      · intro x hx
        simp only [List.mem_cons] at hx
        rcases hx with h1 | h2 | h3
        · subst h1; exact Or.inl rfl
        · subst h2; exact Or.inr (by simp)
        · rcases this.1 x h3 with h4 | h5
          · exact Or.inr (by simp [h4])
          · exact Or.inr (by rw [List.map_cons]; exact List.mem_cons_of_mem _ h5)
      · rcases this.2 with h4 | h5
        · exact Or.inr (by simp [h4])
        · exact Or.inr (by rw [List.map_cons]; exact List.mem_cons_of_mem _ h5)

lemma runPhases_getLast (out : Nat → Option String) :
    ∀ (ps : List (String × Nat)) (i : Nat) (s : RunSnapshot),
      (s :: (runPhases out ps i s).1).getLast? = some (runPhases out ps i s).2.1 := by
  intro ps
  induction ps with
  | nil => intro i s; rfl
  | cons hd rest ih =>
    intro i s
    obtain ⟨txt, p⟩ := hd
    simp only [runPhases]
    cases h : out i with
    | some msg => rfl
    | none =>
      have := ih (i + 1) { { s with progressText := txt } with progress := p }
      simp only [List.getLast?_cons_cons] at this ⊢
      exact this

lemma runPhases_chain (out : Nat → Option String) :
    ∀ (ps : List (String × Nat)) (i : Nat) (s : RunSnapshot),
      monotoneNat (s.progress :: ps.map Prod.snd) = true →
      List.Chain' (fun a b : RunSnapshot => a.progress ≤ b.progress)
        (s :: (runPhases out ps i s).1) := by
  intro ps
  induction ps with
  | nil => intro i s _; simp [runPhases]
  | cons hd rest ih =>
    intro i s hmono
    obtain ⟨txt, p⟩ := hd
    have hm : s.progress ≤ p ∧ monotoneNat (p :: rest.map Prod.snd) = true := by
      simpa [monotoneNat, Bool.and_eq_true] using hmono
    simp only [runPhases]
    cases h : out i with
    | some msg =>
      simp only [List.chain'_cons, List.chain'_singleton]
      exact ⟨le_refl _, hm.1, trivial⟩
    | none =>
      have hrec := ih (i + 1) { { s with progressText := txt } with progress := p } hm.2
      simp only [List.chain'_cons] at hrec ⊢
      exact ⟨le_refl _, hm.1, hrec⟩

lemma heyStepAvg_rps (line : List Char) (m : HeyMetrics) :
    (heyStepAvg line m).rps = m.rps := by
  unfold heyStepAvg; split <;> rfl

lemma heyStepP99_rps (line : List Char) (m : HeyMetrics) :
    (heyStepP99 line m).rps = m.rps := by
  unfold heyStepP99; split <;> rfl

lemma heyStepTotal_rps (line : List Char) (m : HeyMetrics) :
    (heyStepTotal line m).rps = m.rps := by
  unfold heyStepTotal; split <;> rfl

lemma heyStepTotalData_rps (line : List Char) (m : HeyMetrics) :
    (heyStepTotalData line m).rps = m.rps := by
  unfold heyStepTotalData
  split
  · split <;> rfl
  · rfl

lemma heyStepRps_totalBytes (line : List Char) (m : HeyMetrics) :
    (heyStepRps line m).totalBytes = m.totalBytes := by
  unfold heyStepRps; split <;> rfl

lemma heyStepAvg_totalBytes (line : List Char) (m : HeyMetrics) :
    (heyStepAvg line m).totalBytes = m.totalBytes := by
  unfold heyStepAvg; split <;> rfl

lemma heyStepP99_totalBytes (line : List Char) (m : HeyMetrics) :
    (heyStepP99 line m).totalBytes = m.totalBytes := by
  unfold heyStepP99; split <;> rfl

lemma heyStepTotal_totalBytes (line : List Char) (m : HeyMetrics) :
    (heyStepTotal line m).totalBytes = m.totalBytes := by
  unfold heyStepTotal; split <;> rfl

lemma parseHeyLine_rps_invariant (m : HeyMetrics) (line : List Char)
    (h : jsIncludes line "Requests/sec:" = false) :
    (parseHeyLine m line).rps = m.rps := by
  unfold parseHeyLine
  rw [heyStepTotalData_rps, heyStepTotal_rps, heyStepP99_rps, heyStepAvg_rps]
  unfold heyStepRps
  rw [h]
  rfl

lemma parseHeyLine_totalBytes_invariant (m : HeyMetrics) (line : List Char)
    (h : jsIncludes line "Total data:" = false) :
    (parseHeyLine m line).totalBytes = m.totalBytes := by
  unfold parseHeyLine heyStepTotalData
  rw [h]
  show (heyStepTotal line _).totalBytes = m.totalBytes
  rw [heyStepTotal_totalBytes, heyStepP99_totalBytes, heyStepAvg_totalBytes,
    heyStepRps_totalBytes]

lemma parseHeyLine_markerFree (m : HeyMetrics) (line : List Char)
    (h : markerFree line = true) : parseHeyLine m line = m := by
  unfold markerFree at h
  simp only [Bool.and_eq_true, Bool.not_eq_true'] at h
  obtain ⟨⟨⟨⟨h1, h2⟩, h3⟩, h4⟩, h5⟩ := h
  unfold parseHeyLine heyStepRps heyStepAvg heyStepP99 heyStepTotal heyStepTotalData
  simp only [h1, h2, h3, h4, h5, Bool.false_and, Bool.false_eq_true, if_false]

lemma foldl_rps_invariant (lines : List (List Char)) :
    ∀ m : HeyMetrics, (∀ l ∈ lines, jsIncludes l "Requests/sec:" = false) →
      (lines.foldl parseHeyLine m).rps = m.rps := by
  induction lines with
  | nil => intro m _; rfl
  | cons l ls ih =>
    intro m h
    rw [List.foldl_cons]
    rw [ih _ (fun x hx => h x (List.mem_cons_of_mem _ hx))]
    exact parseHeyLine_rps_invariant m l (h l (List.mem_cons_self _ _))

lemma foldl_totalBytes_invariant (lines : List (List Char)) :
    ∀ m : HeyMetrics, (∀ l ∈ lines, jsIncludes l "Total data:" = false) →
      (lines.foldl parseHeyLine m).totalBytes = m.totalBytes := by
  induction lines with
  | nil => intro m _; rfl
  | cons l ls ih =>
    intro m h
    rw [List.foldl_cons]
    rw [ih _ (fun x hx => h x (List.mem_cons_of_mem _ hx))]
    exact parseHeyLine_totalBytes_invariant m l (h l (List.mem_cons_self _ _))

lemma foldl_markerFree (lines : List (List Char)) :
    ∀ m : HeyMetrics, (∀ l ∈ lines, markerFree l = true) →
      lines.foldl parseHeyLine m = m := by
  induction lines with
  | nil => intro m _; rfl
  | cons l ls ih =>
    intro m h
    rw [List.foldl_cons, parseHeyLine_markerFree m l (h l (List.mem_cons_self _ _))]
    exact ih m (fun x hx => h x (List.mem_cons_of_mem _ hx))

lemma parseHeyLine_rpsLine (m : HeyMetrics) :
    parseHeyLine m "Requests/sec: 1234.5".data = { m with rps := ⟨false, 12345, 1⟩ } := rfl

lemma parseHeyLine_totalDataLine (m : HeyMetrics) :
    parseHeyLine m "Total data: 2.00 MB".data =
      { m with totalBytes := some ⟨false, 200 * 1024 * 1024, 2⟩ } := rfl

/-- C4, corrected.  The parser is a total function (it is defined by
structural recursion, with no failure path).  Marker-free input yields all
the zero/"0" defaults.  Because each matching line overwrites the field,
it is the *last* marker line that determines a field, so the quantifiers
in the claim hold for inputs whose last `Requests/sec:` line is
`"Requests/sec: 1234.5"` (rps = 1234.5) and whose last `Total data:` line
is `"Total data: 2.00 MB"` (totalBytes = 2·1024·1024); a `Total data:`
line whose captured numeric token parses as NaN leaves NaN, not zero, in
`totalBytes` — see the counterexample and `parseHeyOutput "Total data: . MB"`. -/
theorem parseHeyOutput_spec :
    (∀ out : String, (∀ l ∈ heyLines out, markerFree l = true) →
      parseHeyOutput out = initMetrics) ∧
    (∀ (out : String) (pre post : List (List Char)),
      heyLines out = pre ++ "Requests/sec: 1234.5".data :: post →
      (∀ l ∈ post, jsIncludes l "Requests/sec:" = false) →
      JsDec.toQ (parseHeyOutput out).rps = 1234.5) ∧
    (∀ (out : String) (pre post : List (List Char)),
      heyLines out = pre ++ "Total data: 2.00 MB".data :: post →
      (∀ l ∈ post, jsIncludes l "Total data:" = false) →
      (parseHeyOutput out).totalBytes.map JsDec.toQ = some (2 * 1024 * 1024)) := by
  refine ⟨?_, ?_, ?_⟩
  · intro out h
    exact foldl_markerFree _ _ h
  · intro out pre post hsplit hpost
    unfold parseHeyOutput
    rw [hsplit, List.foldl_append, List.foldl_cons, parseHeyLine_rpsLine,
      foldl_rps_invariant post _ hpost]
    norm_num [JsDec.toQ]
  · intro out pre post hsplit hpost
    unfold parseHeyOutput
    rw [hsplit, List.foldl_append, List.foldl_cons, parseHeyLine_totalDataLine,
      foldl_totalBytes_invariant post _ hpost]
    norm_num [JsDec.toQ, Option.map]

/-- Witness for `parseHeyOutput_spec` on concrete outputs. -/
theorem parseHeyOutput_spec_witness :
    JsDec.toQ (parseHeyOutput "some noise\nRequests/sec: 1234.5").rps = 1234.5 :=
  parseHeyOutput_spec.2.1 "some noise\nRequests/sec: 1234.5"
    ["some noise".data] [] (by decide) (by decide)

/-- C4, refutation of the claim as stated: an input *containing* the line
`"Requests/sec: 1234.5"` need not parse to rps 1234.5 — a later marker
line overwrites it. -/
theorem parseHeyOutput_counterexample :
    "Requests/sec: 1234.5".data ∈ heyLines "Requests/sec: 1234.5\nRequests/sec: 99" ∧
    JsDec.toQ (parseHeyOutput "Requests/sec: 1234.5\nRequests/sec: 99").rps ≠ 1234.5 := by
  constructor
  · decide
  · have h : (parseHeyOutput "Requests/sec: 1234.5\nRequests/sec: 99").rps = ⟨false, 99, 0⟩ := by
      decide
    rw [h]
    norm_num [JsDec.toQ]

/-- C10 is a code bug (the code contradicts its own "Generate unique run
ID" comment): the id keeps only second precision — `slice(0, 19)` drops
the millisecond part — so two creation instants in the same clock second
yield the *same* id.  The second conjunct generalizes: the id never
depends on the millisecond field at all. -/
theorem generateRunId_not_unique :
    ((⟨2025, 10, 11, 12, 34, 56, 100⟩ : JsDate) ≠ ⟨2025, 10, 11, 12, 34, 56, 900⟩ ∧
      generateRunId ⟨2025, 10, 11, 12, 34, 56, 100⟩ =
        generateRunId ⟨2025, 10, 11, 12, 34, 56, 900⟩ ∧
      generateRunId ⟨2025, 10, 11, 12, 34, 56, 100⟩ = "run-2025-10-11T12-34-56") ∧
    ∀ (t : JsDate) (ms1 ms2 : Nat),
      generateRunId { t with ms := ms1 } = generateRunId { t with ms := ms2 } := by
  refine ⟨by decide, ?_⟩
  intro t ms1 ms2
  cases t
  rfl

/-- C3, corrected: the POST /api/run handler forwards only `duration`,
`concurrency` and `iterations` (with defaults) to `startBenchmark`;
`maxConcurrency` and `suiteDurationMinutes` supplied in the body are
dropped, so those two config fields are always the defaults 2000 and 10. -/
theorem handleRunPost_config (body : RunBody) (t : String) (ht : body.testType = some t)
    (hv : validTestType t = true) :
    handleRunPost body = .ok
      { duration := body.duration.getD "30s",
        concurrency := body.concurrency.getD 50,
        iterations := body.iterations.getD 10,
        maxConcurrency := 2000,
        suiteDurationMinutes := 10 } := by
  unfold handleRunPost
  rw [ht]
  simp only [hv, if_true]
  rfl

/-- Witness for `handleRunPost_config` at a fully-supplied body. -/
theorem handleRunPost_config_witness :
    handleRunPost ⟨some "cpu-heavy", some "60s", some 100, some 20, some 5000, some 30⟩ =
      .ok ⟨"60s", 100, 20, 2000, 10⟩ :=
  handleRunPost_config ⟨some "cpu-heavy", some "60s", some 100, some 20, some 5000, some 30⟩
    "cpu-heavy" rfl (by decide)

/-- C3, refutation of the claim as stated: a body supplying all six
parameters gets a config whose `maxConcurrency` and `suiteDurationMinutes`
are the defaults, not the supplied 5000 and 30. -/
theorem handleRunPost_counterexample :
    handleRunPost ⟨some "full-suite", some "60s", some 100, some 20, some 5000, some 30⟩ =
      .ok ⟨"60s", 100, 20, 2000, 10⟩ ∧
    ¬ handleRunPost ⟨some "full-suite", some "60s", some 100, some 20, some 5000, some 30⟩ =
        .ok ⟨"60s", 100, 20, 5000, 30⟩ := by
  constructor
  · rfl
  · intro h
    simp only [handleRunPost] at h
    exact absurd (congrArg (fun e => match e with
      | Except.ok c => Config.maxConcurrency c
      | Except.error _ => 0) h) (by decide)

lemma simplePhases_milestones (tt : TestTypeInfo) :
    (simplePhases tt).map Prod.snd = [20, 60] ∨ (simplePhases tt).map Prod.snd = [] := by
  unfold simplePhases
  repeat' split
  all_goals simp

lemma phaseList_bound (t : String) : ∀ p ∈ (phaseList t).map Prod.snd, p ≤ 92 := by
  unfold phaseList
  split
  · decide
  · split
    · rename_i p _
      rcases simplePhases_milestones p.2 with h | h <;> rw [h] <;> decide
    · decide

lemma phaseList_monotone (t : String) :
    monotoneNat (5 :: (phaseList t).map Prod.snd) = true := by
  unfold phaseList
  split
  · decide
  · split
    · rename_i p _
      rcases simplePhases_milestones p.2 with h | h <;> rw [h] <;> decide
    · decide

lemma phaseList_of_ne_suite (t : String) (h : t ≠ "full-suite") :
    ∀ p ∈ (phaseList t).map Prod.snd, 20 ≤ p := by
  unfold phaseList
  rw [if_neg (by simpa using h)]
  split
  · rename_i p _
    rcases simplePhases_milestones p.2 with h2 | h2 <;> rw [h2] <;> decide
  · decide

lemma mem_errorTail (s sf : RunSnapshot) (msg : String) (h : s ∈ errorTail sf msg) :
    s.status = .error ∧ s.summary = sf.summary ∧ (s.progress = sf.progress ∨ s.progress = 0) := by
  simp only [errorTail, List.mem_cons, List.not_mem_nil, or_false] at h
  rcases h with h | h | h | h <;> subst h
  · exact ⟨rfl, rfl, Or.inl rfl⟩
  · exact ⟨rfl, rfl, Or.inl rfl⟩
  · exact ⟨rfl, rfl, Or.inr rfl⟩
  · exact ⟨rfl, rfl, Or.inr rfl⟩

lemma mem_successTail (s sf : RunSnapshot) (h : s ∈ successTail sf) :
    (s.summary = sf.summary ∧ s.status = sf.status ∧ s.progress = 95) ∨
    (s.summary = some () ∧ s.status = sf.status ∧ s.progress = 95) ∨
    (s.summary = some () ∧ s.status = .complete ∧ (s.progress = 95 ∨ s.progress = 100)) := by
  simp only [successTail, List.mem_cons, List.not_mem_nil, or_false] at h
  rcases h with h | h | h | h | h | h <;> subst h
  · exact Or.inl ⟨rfl, rfl, rfl⟩
  · exact Or.inl ⟨rfl, rfl, rfl⟩
  · exact Or.inr (Or.inl ⟨rfl, rfl, rfl⟩)
  · exact Or.inr (Or.inr ⟨rfl, rfl, Or.inl rfl⟩)
  · exact Or.inr (Or.inr ⟨rfl, rfl, Or.inr rfl⟩)
  · exact Or.inr (Or.inr ⟨rfl, rfl, Or.inr rfl⟩)

lemma errorTail_chain (sf : RunSnapshot) (msg : String) :
    List.Chain'
      (fun a b : RunSnapshot =>
        a.progress ≤ b.progress ∨ (b.status = RunStatus.error ∧ b.progress = 0))
      (sf :: errorTail sf msg) := by
  unfold errorTail
  refine List.chain'_cons.mpr ⟨Or.inl (le_refl _), ?_⟩
  refine List.chain'_cons.mpr ⟨Or.inl (le_refl _), ?_⟩
  refine List.chain'_cons.mpr ⟨Or.inr ⟨rfl, rfl⟩, ?_⟩
  refine List.chain'_cons.mpr ⟨Or.inl (le_refl _), ?_⟩
  exact List.chain'_singleton _

lemma successTail_chain (sf : RunSnapshot) (h : sf.progress ≤ 95) :
    List.Chain'
      (fun a b : RunSnapshot =>
        a.progress ≤ b.progress ∨ (b.status = RunStatus.error ∧ b.progress = 0))
      (sf :: successTail sf) := by
  unfold successTail
  refine List.chain'_cons.mpr ⟨Or.inl h, ?_⟩
  refine List.chain'_cons.mpr ⟨Or.inl (le_refl _), ?_⟩
  refine List.chain'_cons.mpr ⟨Or.inl (le_refl _), ?_⟩
  refine List.chain'_cons.mpr ⟨Or.inl (le_refl _), ?_⟩
  refine List.chain'_cons.mpr ⟨Or.inl (by norm_num), ?_⟩
  refine List.chain'_cons.mpr ⟨Or.inl (le_refl _), ?_⟩
  exact List.chain'_singleton _

/-- C2, corrected: `summary` is `null` at creation, through every phase,
and on every error outcome; `status = "complete"` implies `summary` is
set.  But the converse fails on a window the claim overlooks: runner.js
assigns `run.summary` (line 581) *before* `run.status = "complete"` (line
586), with `await saveResults(run)` suspending in between, so a poller
can observe `summary ≠ null` while `status` is still `"running"` (at
progress 95). -/
theorem summary_status_spec (testType : String) (healthErr : Bool)
    (out : Nat → Option String) :
    ∀ s ∈ runBenchmarkTrace testType healthErr out,
      (s.status = .complete → s.summary ≠ none) ∧
      (s.summary ≠ none → s.status = .complete ∨ (s.status = .running ∧ s.progress = 95)) ∧
      (s.status = .error → s.summary = none) := by
  intro s hs
  unfold runBenchmarkTrace at hs
  by_cases hv : validTestType testType = true
  · rw [if_neg (not_not_intro hv)] at hs
    by_cases hh : healthErr = true
    · rw [if_pos hh] at hs
      simp only [healthErrTrace, List.mem_cons, List.not_mem_nil, or_false] at hs
      rcases hs with h | h | h | h | h <;> subst h <;> refine ⟨?_, ?_, ?_⟩ <;> decide
    · rw [if_neg hh] at hs
      rcases hr : runPhases out (phaseList testType) 0 healthCheckSnap5 with ⟨tr, sf, err⟩
      rw [hr] at hs
      have hf := runPhases_fields out (phaseList testType) 0 healthCheckSnap5
      rw [hr] at hf
      have hstat : sf.status = .running := hf.2.1
      have hsum : sf.summary = none := hf.2.2.1
      cases err with
      | some msg =>
        simp only [List.mem_cons, List.mem_append] at hs
        rcases hs with (h | h | h | h) | h
        · subst h; refine ⟨?_, ?_, ?_⟩ <;> decide
        · subst h; refine ⟨?_, ?_, ?_⟩ <;> decide
        · subst h; refine ⟨?_, ?_, ?_⟩ <;> decide
        · have hx := hf.1 s h
          refine ⟨?_, ?_, ?_⟩
          · intro hc; rw [hx.1] at hc; exact absurd hc (by decide)
          · intro hsm; rw [hx.2.1] at hsm; exact absurd rfl hsm
          · intro _; exact hx.2.1
        · have he := mem_errorTail s sf msg h
          refine ⟨?_, ?_, ?_⟩
          · intro hc; rw [he.1] at hc; exact absurd hc (by decide)
          · intro hsm; rw [he.2.1, hsum] at hsm; exact absurd rfl hsm
          · intro _; exact he.2.1.trans hsum
      | none =>
        simp only [List.mem_cons, List.mem_append] at hs
        rcases hs with (h | h | h | h) | h
        · subst h; refine ⟨?_, ?_, ?_⟩ <;> decide
        · subst h; refine ⟨?_, ?_, ?_⟩ <;> decide
        · subst h; refine ⟨?_, ?_, ?_⟩ <;> decide
        · have hx := hf.1 s h
          refine ⟨?_, ?_, ?_⟩
          · intro hc; rw [hx.1] at hc; exact absurd hc (by decide)
          · intro hsm; rw [hx.2.1] at hsm; exact absurd rfl hsm
          · intro _; exact hx.2.1
        · rcases mem_successTail s sf h with h1 | h2 | h3
          · refine ⟨?_, ?_, ?_⟩
            · intro hc; rw [h1.2.1, hstat] at hc; exact absurd hc (by decide)
            · intro hsm; rw [h1.1, hsum] at hsm; exact absurd rfl hsm
            · intro _; exact h1.1.trans hsum
          · refine ⟨?_, ?_, ?_⟩
            · intro _; rw [h2.1]; exact Option.some_ne_none ()
            · intro _; exact Or.inr ⟨h2.2.1.trans hstat, h2.2.2⟩
            · intro he; rw [h2.2.1, hstat] at he; exact absurd he (by decide)
          · refine ⟨?_, ?_, ?_⟩
            · intro _; rw [h3.1]; exact Option.some_ne_none ()
            · intro _; exact Or.inl h3.2.1
            · intro he; rw [h3.2.1] at he; exact absurd he (by decide)
  · rw [if_pos hv] at hs
    simp only [unknownTrace, List.mem_cons, List.not_mem_nil, or_false] at hs
    rcases hs with h | h | h <;> subst h <;> refine ⟨?_, ?_, ?_⟩ <;> decide

/-- Witness for `summary_status_spec` at the creation snapshot of a
concrete run. -/
theorem summary_status_spec_witness :
    initialRun ∈ runBenchmarkTrace "cpu-heavy" false (fun _ => none) ∧
    ((initialRun.status = .complete → initialRun.summary ≠ none) ∧
     (initialRun.summary ≠ none →
       initialRun.status = .complete ∨ (initialRun.status = .running ∧ initialRun.progress = 95)) ∧
     (initialRun.status = .error → initialRun.summary = none)) :=
  ⟨by decide, summary_status_spec "cpu-heavy" false (fun _ => none) initialRun (by decide)⟩

/-- C2, refutation of the claim as stated: in the completed trace of a
`cpu-heavy` run there is an observable snapshot (the one current while
`saveResults` is awaited) with `summary` set and `status` still
`"running"`. -/
theorem summary_status_counterexample :
    ¬ (∀ s ∈ runBenchmarkTrace "cpu-heavy" false (fun _ => none),
        (s.summary ≠ none ↔ s.status = RunStatus.complete)) := by decide

/-- C1, corrected: every `progress` value written is an integer in
[0, 100], and progress is non-decreasing across every adjacent pair of
state updates *except* the single terminal reset of the `catch` block
(runner.js 594), which writes `progress = 0` after the run has entered
`status = "error"`.  The relation below permits a decrease only into that
error-reset state. -/
theorem progress_spec (testType : String) (healthErr : Bool) (out : Nat → Option String) :
    (∀ x ∈ runBenchmarkTrace testType healthErr out, x.progress ≤ 100) ∧
    List.Chain'
      (fun a b : RunSnapshot =>
        a.progress ≤ b.progress ∨ (b.status = RunStatus.error ∧ b.progress = 0))
      (runBenchmarkTrace testType healthErr out) := by
  unfold runBenchmarkTrace
  by_cases hv : validTestType testType = true
  · rw [if_neg (not_not_intro hv)]
    by_cases hh : healthErr = true
    · rw [if_pos hh]
      constructor
      · intro x hx
        simp only [healthErrTrace, List.mem_cons, List.not_mem_nil, or_false] at hx
        rcases hx with h | h | h | h | h <;> subst h <;> decide
      · unfold healthErrTrace
        refine List.chain'_cons.mpr ⟨Or.inl (by decide), ?_⟩
        refine List.chain'_cons.mpr ⟨Or.inl (by decide), ?_⟩
        refine List.chain'_cons.mpr ⟨Or.inl (by decide), ?_⟩
        refine List.chain'_cons.mpr ⟨Or.inl (by decide), ?_⟩
        exact List.chain'_singleton _
    · rw [if_neg hh]
      rcases hr : runPhases out (phaseList testType) 0 healthCheckSnap5 with ⟨tr, sf, err⟩
      have hp := runPhases_progress out (phaseList testType) 0 healthCheckSnap5
      have hl := runPhases_getLast out (phaseList testType) 0 healthCheckSnap5
      have hc := runPhases_chain out (phaseList testType) 0 healthCheckSnap5
        (phaseList_monotone testType)
      rw [hr] at hp hl hc
      have hsfp : sf.progress = 5 ∨ sf.progress ∈ (phaseList testType).map Prod.snd := hp.2
      have hsf95 : sf.progress ≤ 95 := by
        rcases hsfp with h | h
        · rw [h]; norm_num
        · exact le_trans (phaseList_bound testType _ h) (by norm_num)
      have hmem : ∀ x ∈ tr, x.progress ≤ 100 := by
        intro x hx
        rcases hp.1 x hx with h | h
        · rw [h]; decide
        · exact le_trans (phaseList_bound testType _ h) (by norm_num)
      cases err with
      | some msg =>
        constructor
        · intro x hx
          simp only [List.mem_cons, List.mem_append] at hx
          rcases hx with (h | h | h | h) | h
          · subst h; decide
          · subst h; decide
          · subst h; decide
          · exact hmem x h
          · rcases (mem_errorTail x sf msg h).2.2 with h2 | h2
            · rw [h2]; exact le_trans hsf95 (by norm_num)
            · rw [h2]; norm_num
        · refine List.chain'_cons.mpr ⟨Or.inl (by decide), ?_⟩
          refine List.chain'_cons.mpr ⟨Or.inl (by decide), ?_⟩
          show List.Chain' _ ((healthCheckSnap5 :: tr) ++ errorTail sf msg)
          refine List.chain'_append.mpr ⟨?_, ?_, ?_⟩
          · exact hc.imp (fun a b hab => Or.inl hab)
          · exact (List.chain'_cons'.mp (errorTail_chain sf msg)).2
          · intro x hx y hy
            rw [hl] at hx
            simp only [Option.mem_def, Option.some.injEq] at hx
            subst hx
            exact (List.chain'_cons'.mp (errorTail_chain sf msg)).1 y hy
      | none =>
        constructor
        · intro x hx
          simp only [List.mem_cons, List.mem_append] at hx
          rcases hx with (h | h | h | h) | h
          · subst h; decide
          · subst h; decide
          · subst h; decide
          · exact hmem x h
          · rcases (mem_successTail x sf h) with h2 | h2 | h2
            · rw [h2.2.2]; norm_num
            · rw [h2.2.2]; norm_num
            · rcases h2.2.2 with h3 | h3 <;> rw [h3] <;> norm_num
        · refine List.chain'_cons.mpr ⟨Or.inl (by decide), ?_⟩
          refine List.chain'_cons.mpr ⟨Or.inl (by decide), ?_⟩
          show List.Chain' _ ((healthCheckSnap5 :: tr) ++ successTail sf)
          refine List.chain'_append.mpr ⟨?_, ?_, ?_⟩
          · exact hc.imp (fun a b hab => Or.inl hab)
          · exact (List.chain'_cons'.mp (successTail_chain sf hsf95)).2
          · intro x hx y hy
            rw [hl] at hx
            simp only [Option.mem_def, Option.some.injEq] at hx
            subst hx
            exact (List.chain'_cons'.mp (successTail_chain sf hsf95)).1 y hy
  · rw [if_pos hv]
    constructor
    · intro x hx
      simp only [unknownTrace, List.mem_cons, List.not_mem_nil, or_false] at hx
      rcases hx with h | h | h <;> subst h <;> decide
    · unfold unknownTrace
      refine List.chain'_cons.mpr ⟨Or.inl (by decide), ?_⟩
      refine List.chain'_cons.mpr ⟨Or.inl (by decide), ?_⟩
      exact List.chain'_singleton _

/-- Witness for `progress_spec` at the creation snapshot of a concrete
run. -/
theorem progress_spec_witness :
    initialRun ∈ runBenchmarkTrace "cpu-heavy" false (fun _ => none) ∧
    initialRun.progress ≤ 100 :=
  ⟨by decide, (progress_spec "cpu-heavy" false (fun _ => none)).1 initialRun (by decide)⟩

/-- C1, refutation of the claim as stated: on a `network-inbound` run
whose first executor call throws (realizable, e.g. the payload-file
fallback write failing), progress goes 0, 0, 5, 5, 20, 20, 20, 0, 0 — the
catch block resets it from 20 to 0, so progress is not monotonically
non-decreasing over the run's state updates. -/
theorem progress_counterexample :
    ¬ List.Chain' (fun a b : RunSnapshot => a.progress ≤ b.progress)
      (runBenchmarkTrace "network-inbound" false (fun _ => some "disk full")) := by
  intro h
  have hb := (progressMonotone_iff_chain _).2 h
  have hf : progressMonotone
      (runBenchmarkTrace "network-inbound" false (fun _ => some "disk full")) = false := by
    decide
  rw [hf] at hb
  exact Bool.false_ne_true hb

/-- C7, corrected: when the health probe reports an error for either
target, the run transitions directly to `status = "error"` with the fixed
message "Services not healthy", no test phase executes (the trace is
exactly the five-snapshot `healthErrTrace`), and progress never exceeds 5.
That keeps progress *strictly below* every phase milestone of every
non-suite kind (whose milestones are 20 and 60) — but for a `full-suite`
run the first phase milestone is itself 5, which the health probe has
already reached, so "strictly below every phase-specific milestone" fails
there (see the counterexample). -/
theorem health_short_circuit_spec (testType : String) (hv : validTestType testType = true)
    (out : Nat → Option String) :
    runBenchmarkTrace testType true out = healthErrTrace ∧
    healthErrTrace.getLast? =
      some { healthCheckSnap5 with status := .error, error := some "Services not healthy" } ∧
    (∀ s ∈ runBenchmarkTrace testType true out, s.status ≠ .complete ∧ s.progress ≤ 5) ∧
    (testType ≠ "full-suite" →
      ∀ m ∈ (phaseList testType).map Prod.snd,
        ∀ s ∈ runBenchmarkTrace testType true out, s.progress < m) := by
  have htr : runBenchmarkTrace testType true out = healthErrTrace := by
    unfold runBenchmarkTrace
    rw [if_neg (not_not_intro hv)]
    rfl
  have hmem : ∀ s ∈ runBenchmarkTrace testType true out, s.status ≠ .complete ∧ s.progress ≤ 5 := by
    rw [htr]
    decide
  refine ⟨htr, by decide, hmem, ?_⟩
  intro hne m hm s hsmem
  have h20 := phaseList_of_ne_suite testType hne m hm
  have h5 := (hmem s hsmem).2
  omega

/-- Witness for `health_short_circuit_spec` at a concrete run kind. -/
theorem health_short_circuit_spec_witness :
    runBenchmarkTrace "cpu-heavy" true (fun _ => none) = healthErrTrace :=
  (health_short_circuit_spec "cpu-heavy" (by decide) (fun _ => none)).1

/-- C7, refutation of the claim as stated: for a `full-suite` run with a
failing health probe, progress reaches 5, which is *equal to* (not
strictly below) the first suite phase milestone (5). -/
theorem health_short_circuit_counterexample :
    ¬ (∀ s ∈ runBenchmarkTrace "full-suite" true (fun _ => none),
        ∀ m ∈ (phaseList "full-suite").map Prod.snd, s.progress < m) := by decide

/-- C6, corrected: the summary calculator is a total function (every
access path tolerates absent fields), results absent on both sides give
`"N/A"` for every ratio of every test kind, and a zero-or-absent
denominator gives `"N/A"` — shown for the simple throughput branch, the
`cpu-heavy` branch and the suite's `networkEgress` block.  What fails in
the claim is "treats every absent metric as zero": in the suite's
`throughputTodos`/`cpu`/`fibonacci` blocks the metric reads carry no
`|| 0` guard, so an absent *numerator* with a positive denominator
produces the string `"NaN"` (see the counterexample). -/
theorem calculateSummary_spec :
    (∀ t ∈ TEST_TYPES.map Prod.fst,
      ∀ p ∈ (calculateSummary { bun := none, nodejs := none } t).improvements,
        p.2 = ImpValue.na) ∧
    (∀ (r : Results) (t : String), jsStartsWith t "throughput" = true →
      numD0 (r.nodejs.bind (fun x => x.requests_per_second)) = 0 →
      (calculateSummary r t).improvements = [("throughput", ImpValue.na)]) ∧
    (∀ r : Results, numD0 (r.bun.bind (fun x => x.avg_duration_ms)) = 0 →
      (calculateSummary r "cpu-heavy").improvements = [("cpu", ImpValue.na)]) ∧
    (∀ (r : Results) (be nr : SubResult),
      r.bun.bind (fun x => x.networkEgress) = some be →
      r.nodejs.bind (fun x => x.networkEgress) = some nr →
      strParse0 nr.throughput_mbps = 0 →
      ("networkEgress", ImpValue.na) ∈ (calculateSummary r "full-suite").improvements) := by
  refine ⟨by decide, ?_, ?_, ?_⟩
  · intro r t hstart hzero
    have hfs : (t == "full-suite") = false := by
      by_cases h : t = "full-suite"
      · subst h; exact absurd hstart (by decide)
      · exact beq_eq_false_iff_ne.mpr h
    simp only [calculateSummary, hfs, hstart, Bool.false_eq_true, if_false, if_true]
    rw [hzero]
    simp [lt_irrefl]
  · intro r hzero
    simp only [calculateSummary,
      (by decide : (("cpu-heavy" : String) == "full-suite") = false),
      (by decide : jsStartsWith "cpu-heavy" "throughput" = false),
      (by decide : (("cpu-heavy" : String) == "cpu-heavy") = true),
      Bool.false_eq_true, if_false, if_true]
    rw [hzero]
    simp [lt_irrefl]
  · intro r be nr hbe hnr hzero
    have hegress : suiteEgressImp r = [("networkEgress", ImpValue.na)] := by
      unfold suiteEgressImp
      rw [hbe, hnr]
      simp [hzero, lt_irrefl]
    simp only [calculateSummary,
      (by decide : (("full-suite" : String) == "full-suite") = true), if_true]
    simp [List.mem_append, hegress]

/-- Witness for `calculateSummary_spec` at an empty results object. -/
theorem calculateSummary_spec_witness :
    (calculateSummary { bun := none, nodejs := none } "cpu-heavy").improvements =
      [("cpu", ImpValue.na)] :=
  calculateSummary_spec.2.2.1 { bun := none, nodejs := none } (by decide)

/-- C6, refutation of the claim as stated: on a full-suite results object
whose bun `throughput.todos` record exists but lacks
`requests_per_second`, with node reporting 100 rps, the computed
`throughputTodos` improvement is the string `"NaN"` — neither `"N/A"`
(the denominator is positive) nor the `"0.00"` an absent-as-zero
treatment would give. -/
theorem calculateSummary_counterexample :
    (calculateSummary nanResults "full-suite").improvements =
      [("throughputTodos", ImpValue.nan)] ∧
    ImpValue.nan ≠ ImpValue.na ∧ ∀ q : ℚ, ImpValue.nan ≠ ImpValue.fixed2 q :=
  ⟨by decide, by decide, fun _ h => ImpValue.noConfusion h⟩

lemma stringDataInj {a b : String} (h : a.data = b.data) : a = b := by
  cases a; cases b; exact congrArg String.mk h

lemma stringAppend_data (a b : String) : (a ++ b).data = a.data ++ b.data := rfl

lemma stringAppend_cancel_left {d f1 f2 : String} (h : d ++ f1 = d ++ f2) : f1 = f2 := by
  apply stringDataInj
  have h2 := congrArg String.data h
  rw [stringAppend_data, stringAppend_data] at h2
  exact List.append_cancel_left h2

lemma runPath_ne (d : String) {f1 f2 : String} (h : f1 ≠ f2) : d ++ f1 ≠ d ++ f2 :=
  fun he => h (stringAppend_cancel_left he)

lemma stringLen_append (a b : String) : (a ++ b).length = a.length + b.length := by
  show (a.data ++ b.data).length = a.data.length + b.data.length
  exact List.length_append _ _

lemma indexPath_ne_runFile (id f : String) (hf : 10 ≤ f.length) :
    RESULTS_DIR ++ "/runs.json" ≠ RESULTS_DIR ++ "/" ++ id ++ f := by
  intro h
  have h2 := congrArg String.length h
  rw [stringLen_append, stringLen_append, stringLen_append, stringLen_append] at h2
  have e1 : RESULTS_DIR.length = 8 := rfl
  have e2 : ("/runs.json" : String).length = 10 := rfl
  have e3 : ("/" : String).length = 1 := rfl
  omega

lemma fsRead_write_same (fs : FS) (p : String) (v : FileVal) :
    fsRead (fsWrite fs p v) p = some v := by
  unfold fsRead fsWrite
  rw [List.find?_cons_of_pos]
  · rfl
  · simp

lemma fsRead_write_other (fs : FS) {p q : String} (v : FileVal) (h : p ≠ q) :
    fsRead (fsWrite fs p v) q = fsRead fs q := by
  unfold fsRead fsWrite
  rw [List.find?_cons_of_neg]
  simp [h]

lemma readIndex_saveResults (fs : FS) (run : RunRecord) :
    readIndex (saveResults fs run) = (mkIndexEntry run :: readIndex fs).take 50 := by
  have hsumm :=
    indexPath_ne_runFile run.id "/summary.json" (by decide)
  have hnode :=
    indexPath_ne_runFile run.id "/nodejs-results.json" (by decide)
  have hbun :=
    indexPath_ne_runFile run.id "/bun-results.json" (by decide)
  have hcfg :=
    indexPath_ne_runFile run.id "/config.json" (by decide)
  unfold saveResults updateRunsIndex
  have hrest : readIndex
      (fsWrite
        (fsWrite
          (fsWrite
            (fsWrite fs (RESULTS_DIR ++ "/" ++ run.id ++ "/config.json")
              (.configFile run.config))
            (RESULTS_DIR ++ "/" ++ run.id ++ "/bun-results.json")
            (.resultsFile run.resultsBun))
          (RESULTS_DIR ++ "/" ++ run.id ++ "/nodejs-results.json")
          (.resultsFile run.resultsNodejs))
        (RESULTS_DIR ++ "/" ++ run.id ++ "/summary.json")
        (.summaryFile ⟨run.id, run.testType, run.startTime, run.endTime, run.summary⟩)) =
      readIndex fs := by
    unfold readIndex
    rw [fsRead_write_other _ _ hsumm.symm, fsRead_write_other _ _ hnode.symm,
      fsRead_write_other _ _ hbun.symm, fsRead_write_other _ _ hcfg.symm]
  rw [hrest]
  unfold readIndex
  rw [fsRead_write_same]

lemma take_cons_take (a : IndexEntry) (l : List IndexEntry) (n : Nat) :
    (a :: l.take (n + 1)).take (n + 1) = (a :: l).take (n + 1) := by
  have hmin : min n (n + 1) = n := by omega
  rw [List.take_succ_cons, List.take_succ_cons, List.take_take, hmin]

lemma take50_cons (a : IndexEntry) (l : List IndexEntry) :
    (a :: l.take 50).take 50 = (a :: l).take 50 := by
  rw [show (50 : Nat) = 49 + 1 from rfl]
  exact take_cons_take a l 49

lemma persistAll_readIndex :
    ∀ (runs : List RunRecord) (fs : FS) (cur : List IndexEntry),
      readIndex fs = cur.take 50 →
      readIndex (persistAll fs runs) = ((runs.map mkIndexEntry).reverse ++ cur).take 50 := by
  intro runs
  induction runs with
  | nil =>
    intro fs cur h
    simpa [persistAll] using h
  | cons r rs ih =>
    intro fs cur h
    have h2 : readIndex (saveResults fs r) = (mkIndexEntry r :: cur).take 50 := by
      rw [readIndex_saveResults, h, take50_cons]
    have h3 := ih (saveResults fs r) (mkIndexEntry r :: cur) h2
    show readIndex (List.foldl saveResults fs (r :: rs)) =
      (((r :: rs).map mkIndexEntry).reverse ++ cur).take 50
    rw [List.foldl_cons]
    exact h3.trans (by simp)

/-- C8, confirmed: persisting any sequence of completed runs starting
from an empty store leaves the index holding exactly `min n 50` entries,
most recent first (the persisted sequence reversed, truncated to 50) —
each completion having been prepended (`unshift`) before the
`slice(0, 50)` truncation (`readIndex_saveResults`).  In particular 55
persisted runs leave exactly 50 entries. -/
theorem runsIndex_bounded :
    (∀ runs : List RunRecord,
      readIndex (persistAll [] runs) = ((runs.map mkIndexEntry).reverse).take 50) ∧
    (∀ runs : List RunRecord,
      (readIndex (persistAll [] runs)).length = min runs.length 50) ∧
    (∀ runs : List RunRecord, runs.length = 55 →
      (readIndex (persistAll [] runs)).length = 50) := by
  have hmain : ∀ runs : List RunRecord,
      readIndex (persistAll [] runs) = ((runs.map mkIndexEntry).reverse).take 50 := by
    intro runs
    have h := persistAll_readIndex runs [] [] rfl
    simpa using h
  have hlen : ∀ runs : List RunRecord,
      (readIndex (persistAll [] runs)).length = min runs.length 50 := by
    intro runs
    rw [hmain]
    simp [List.length_take]
    omega
  exact ⟨hmain, hlen, fun runs h => by rw [hlen, h]; decide⟩

/-- Witness for `runsIndex_bounded`: after persisting 55 concrete runs
the index holds exactly 50 entries. -/
theorem runsIndex_bounded_witness :
    (List.replicate 55 sampleRun).length = 55 ∧
    (readIndex (persistAll [] (List.replicate 55 sampleRun))).length = 50 :=
  ⟨by simp, runsIndex_bounded.2.2 (List.replicate 55 sampleRun) (by simp)⟩

lemma getRunDetails_some (fs : FS) (runId : String) (x : RunDetails)
    (h : getRunDetails fs runId = some x) :
    fsRead fs (RESULTS_DIR ++ "/" ++ runId ++ "/config.json") ≠ none ∧
    fsRead fs (RESULTS_DIR ++ "/" ++ runId ++ "/bun-results.json") ≠ none ∧
    fsRead fs (RESULTS_DIR ++ "/" ++ runId ++ "/nodejs-results.json") ≠ none ∧
    fsRead fs (RESULTS_DIR ++ "/" ++ runId ++ "/summary.json") ≠ none := by
  unfold getRunDetails at h
  split at h
  · rename_i heq1 heq2 heq3 heq4
    rw [heq1, heq2, heq3, heq4]
    exact ⟨Option.some_ne_none _, Option.some_ne_none _, Option.some_ne_none _,
      Option.some_ne_none _⟩
  · exact absurd h (by simp)

/-- C9, confirmed: after `saveResults` writes the four artifacts of a
run, `getRunDetails` on that run's id returns exactly the artifacts
written (the summary document being the wrapper object of runner.js
889–895, whose `endTime` is still absent since `saveResults` runs before
`endTime` is assigned); and whenever any one of the four artifacts is
absent, `getRunDetails` returns null rather than a partial result. -/
theorem getRunDetails_roundtrip :
    (∀ (fs : FS) (run : RunRecord),
      getRunDetails (saveResults fs run) run.id =
        some ⟨run.config, run.resultsBun, run.resultsNodejs,
          ⟨run.id, run.testType, run.startTime, run.endTime, run.summary⟩⟩) ∧
    (∀ (fs : FS) (runId : String),
      (fsRead fs (RESULTS_DIR ++ "/" ++ runId ++ "/config.json") = none ∨
        fsRead fs (RESULTS_DIR ++ "/" ++ runId ++ "/bun-results.json") = none ∨
        fsRead fs (RESULTS_DIR ++ "/" ++ runId ++ "/nodejs-results.json") = none ∨
        fsRead fs (RESULTS_DIR ++ "/" ++ runId ++ "/summary.json") = none) →
      getRunDetails fs runId = none) := by
  constructor
  · intro fs run
    have hic := indexPath_ne_runFile run.id "/config.json" (by decide)
    have hib := indexPath_ne_runFile run.id "/bun-results.json" (by decide)
    have hin := indexPath_ne_runFile run.id "/nodejs-results.json" (by decide)
    have his := indexPath_ne_runFile run.id "/summary.json" (by decide)
    have hr1 : fsRead (saveResults fs run)
        (RESULTS_DIR ++ "/" ++ run.id ++ "/config.json") = some (.configFile run.config) := by
      unfold saveResults updateRunsIndex
      rw [fsRead_write_other _ _ hic.symm.symm,
        fsRead_write_other _ _
          (runPath_ne (RESULTS_DIR ++ "/" ++ run.id)
            (by decide : ("/summary.json" : String) ≠ "/config.json")),
        fsRead_write_other _ _
          (runPath_ne (RESULTS_DIR ++ "/" ++ run.id)
            (by decide : ("/nodejs-results.json" : String) ≠ "/config.json")),
        fsRead_write_other _ _
          (runPath_ne (RESULTS_DIR ++ "/" ++ run.id)
            (by decide : ("/bun-results.json" : String) ≠ "/config.json")),
        fsRead_write_same]
    have hr2 : fsRead (saveResults fs run)
        (RESULTS_DIR ++ "/" ++ run.id ++ "/bun-results.json") =
          some (.resultsFile run.resultsBun) := by
      unfold saveResults updateRunsIndex
      rw [fsRead_write_other _ _ hib.symm.symm,
        fsRead_write_other _ _
          (runPath_ne (RESULTS_DIR ++ "/" ++ run.id)
            (by decide : ("/summary.json" : String) ≠ "/bun-results.json")),
        fsRead_write_other _ _
          (runPath_ne (RESULTS_DIR ++ "/" ++ run.id)
            (by decide : ("/nodejs-results.json" : String) ≠ "/bun-results.json")),
        fsRead_write_same]
    have hr3 : fsRead (saveResults fs run)
        (RESULTS_DIR ++ "/" ++ run.id ++ "/nodejs-results.json") =
          some (.resultsFile run.resultsNodejs) := by
      unfold saveResults updateRunsIndex
      rw [fsRead_write_other _ _ hin.symm.symm,
        fsRead_write_other _ _
          (runPath_ne (RESULTS_DIR ++ "/" ++ run.id)
            (by decide : ("/summary.json" : String) ≠ "/nodejs-results.json")),
        fsRead_write_same]
    have hr4 : fsRead (saveResults fs run)
        (RESULTS_DIR ++ "/" ++ run.id ++ "/summary.json") =
          some (.summaryFile ⟨run.id, run.testType, run.startTime, run.endTime, run.summary⟩) := by
      unfold saveResults updateRunsIndex
      rw [fsRead_write_other _ _ his.symm.symm, fsRead_write_same]
    unfold getRunDetails
    rw [hr1, hr2, hr3, hr4]
  · intro fs runId h
    cases hopt : getRunDetails fs runId with
    | none => rfl
    | some x =>
      have hx := getRunDetails_some fs runId x hopt
      rcases h with h | h | h | h
      · exact absurd h hx.1
      · exact absurd h hx.2.1
      · exact absurd h hx.2.2.1
      · exact absurd h hx.2.2.2

/-- Witness for `getRunDetails_roundtrip`: fetching an id for which no
artifact exists yields "not found". -/
theorem getRunDetails_roundtrip_witness :
    getRunDetails ([] : FS) "nonexistent" = none :=
  getRunDetails_roundtrip.2 [] "nonexistent" (Or.inl rfl)

lemma lowRangeLoop_le (maxC : Nat) :
    ∀ fuel i l, l ∈ lowRangeLoop maxC i fuel → l ≤ maxC := by
  intro fuel
  induction fuel with
  | zero => intro i l h; simp [lowRangeLoop] at h
  | succ n ih =>
    intro i l h
    simp only [lowRangeLoop] at h
    by_cases hi : i ≤ maxC
    · rw [if_pos hi] at h
      rcases List.mem_append.1 h with h1 | h2
      · by_cases hc : i ≤ 100 ∨ i % 100 = 0
        · rw [if_pos hc] at h1; simp at h1; omega
        · rw [if_neg hc] at h1; simp at h1
      · exact ih _ _ h2
    · rw [if_neg hi] at h; simp at h

lemma stepLoop_le (step maxC : Nat) :
    ∀ fuel i l, l ∈ stepLoop step maxC i fuel → l ≤ maxC := by
  intro fuel
  induction fuel with
  | zero => intro i l h; simp [stepLoop] at h
  | succ n ih =>
    intro i l h
    simp only [stepLoop] at h
    by_cases hi : i ≤ maxC
    · rw [if_pos hi] at h
      rcases List.mem_cons.1 h with h1 | h2
      · omega
      · exact ih _ _ h2
    · rw [if_neg hi] at h; simp at h

lemma generateConcurrencyLevels_mem_le (maxC : Nat) :
    ∀ l ∈ generateConcurrencyLevels maxC, l ≤ maxC := by
  intro l hl
  unfold generateConcurrencyLevels at hl
  simp only [List.mem_filter, decide_eq_true_eq] at hl
  exact hl.2

lemma generateConcurrencyLevels_filter_eq (maxC : Nat) :
    ∀ (levels : List Nat), (∀ l ∈ levels, l ≤ maxC) →
      levels.filter (· ≤ maxC) = levels := by
  intro levels h
  apply List.filter_eq_self.2
  intro a ha
  simpa using h a ha

lemma rangeLevels_le (maxC : Nat) : ∀ l ∈ rangeLevels maxC, l ≤ maxC := by
  intro l hl
  unfold rangeLevels at hl
  by_cases h1 : maxC ≤ 500
  · rw [if_pos h1] at hl; exact lowRangeLoop_le _ _ _ _ hl
  · rw [if_neg h1] at hl
    by_cases h2 : maxC ≤ 2000
    · rw [if_pos h2] at hl
      rcases List.mem_append.1 hl with h3 | h4
      · simp at h3; omega
      · exact stepLoop_le _ _ _ _ _ h4
    · rw [if_neg h2] at hl
      rcases List.mem_append.1 hl with h3 | h4
      · simp at h3; omega
      · exact stepLoop_le _ _ _ _ _ h4

lemma generateConcurrencyLevels_getLast (maxC : Nat) :
    (generateConcurrencyLevels maxC).getLast? = some maxC := by
  unfold generateConcurrencyLevels
  show ((if (rangeLevels maxC).getLast? ≠ some maxC then rangeLevels maxC ++ [maxC]
      else rangeLevels maxC).filter (· ≤ maxC)).getLast? = some maxC
  have hle := rangeLevels_le maxC
  by_cases hlast : (rangeLevels maxC).getLast? = some maxC
  · simp only [hlast]
    rw [if_neg (by simp)]
    rw [generateConcurrencyLevels_filter_eq maxC _ hle]
    exact hlast
  · rw [if_pos (by simpa using hlast)]
    have hle2 : ∀ l ∈ rangeLevels maxC ++ [maxC], l ≤ maxC := by
      intro l hl
      rcases List.mem_append.1 hl with h1 | h2
      · exact hle l h1
      · simp at h2; omega
    rw [generateConcurrencyLevels_filter_eq maxC _ hle2]
    simp

/-- C5: for every positive requested ceiling, `generateConcurrencyLevels`
returns a list whose last element is exactly the ceiling and which contains
no level exceeding it; `generateConcurrencyLevels 2000` ends with `2000`
with nothing above `2000`, and `generateConcurrencyLevels 100` contains
`100` both as a regular step of the low range (it is already the last
element of `rangeLevels 100`, so the ensure-max push adds nothing) and as
the final element. -/
theorem generateConcurrencyLevels_ceiling (maxC : Nat) (_hpos : 0 < maxC) :
    (generateConcurrencyLevels maxC).getLast? = some maxC ∧
    (∀ l ∈ generateConcurrencyLevels maxC, l ≤ maxC) ∧
    generateConcurrencyLevels 2000 = [100, 250, 500, 750, 1000, 1250, 1500, 1750, 2000] ∧
    rangeLevels 100 = [50, 100] ∧
    generateConcurrencyLevels 100 = [50, 100] :=
  ⟨generateConcurrencyLevels_getLast maxC, generateConcurrencyLevels_mem_le maxC,
    by decide, by decide, by decide⟩

/-- Witness for `generateConcurrencyLevels_ceiling` at the concrete
ceiling 300. -/
theorem generateConcurrencyLevels_ceiling_witness :
    0 < 300 ∧ (generateConcurrencyLevels 300).getLast? = some 300 :=
  ⟨by decide, (generateConcurrencyLevels_ceiling 300 (by decide)).1⟩

end LoadTester
